import Mathlib

/-!
Formal model of the WIDS detection-and-mitigation engine of this
repository.  Namespace `SP` shallowly embeds `Server.py` (the variant
with the in-process `IPTablesManager` and `ThreatDetector`); namespace
`Srv` embeds `server.py` (the variant with the sqlite block table,
`check_intrusion` and the periodic `auto_blocking_thread`).

Conventions of the embedding:
* timestamps are integers (epoch seconds); each handler receives the
  value of `datetime.now()` / `time.time()` as an explicit parameter;
* Python dicts keyed by MAC become functions `String → Option _`,
  Python sets become `Finset String`;
* the iptables backend is modelled by the set of MAC-DROP rules it
  currently holds; every mutating subprocess invocation takes a
  Boolean oracle telling whether the external command succeeds
  (raising / failing when the oracle is `false`);
* the packets-per-second value `len(window) / 10.0` is embedded as
  exact rational division (the comparisons the code performs are
  exact at every integer window length involved);
* human-readable format strings keep their fixed text but elide the
  interpolated numeric values, which no control flow depends on.
-/

namespace Wids

/-- Python's `str.upper()`: character-wise uppercase of the string. -/
def pyUpper (s : String) : String := ⟨s.data.map Char.toUpper⟩

/-! ## `Server.py` (namespace `SP`) -/

namespace SP

/-- One telemetry JSON body as read by `Server.py` (`data.get(...)`
with the defaults used at each call site; an `Option` field is `none`
when the key is absent). -/
structure Packet where
  mac : Option String
  packet_type : Option String
  rssi : Option ℤ
  channel : Option ℤ
deriving DecidableEq

/-- One finding produced by `ThreatDetector.analyze_packet`. -/
structure Threat where
  ttype : String
  severity : String
  description : String
deriving DecidableEq

/-- One entry of `devices[mac]` in `Server.py` (`threat_level` starts
at `"normal"`; `blocked` is written by `receive_packet` right after
the upsert). -/
structure Device where
  first_seen : ℤ
  last_seen : ℤ
  packet_count : ℕ
  rssi : ℤ
  channel : ℤ
  authorized : Bool
  threat_level : String
  blocked : Bool
deriving DecidableEq

/-- The iptables `WIDS_BLOCK` chain: the set of MAC addresses that
currently have a DROP rule. -/
structure Firewall where
  rules : Finset String
deriving DecidableEq

/-- `IPTablesManager.block_mac`: check the rule with `iptables -C`
(present iff `mac ∈ rules`); when absent, run `iptables -A` with
`check=True` — the oracle `ok` tells whether that command succeeds
(an exception is caught and turned into `False`).  Returns `True`
only when a new rule was inserted. -/
def Firewall.block_mac (fw : Firewall) (ok : Bool) (mac : String) : Bool × Firewall :=
  if mac ∈ fw.rules then (false, fw)
  else if ok then (true, ⟨insert mac fw.rules⟩)
  else (false, fw)

/-- `IPTablesManager.unblock_mac`: run `iptables -D`; the oracle `ok`
is the success of that subprocess call.  When the command fails
(rule absent or error exit) the manager flushes the whole chain via
`cleanup_rules` and returns `False`. -/
def Firewall.unblock_mac (fw : Firewall) (ok : Bool) (mac : String) : Bool × Firewall :=
  if ok ∧ mac ∈ fw.rules then (true, ⟨fw.rules.erase mac⟩)
  else (false, ⟨(∅ : Finset String)⟩)

/-- `IPTablesManager.is_blocked`: membership in the parsed output of
`list_blocked` (MAC addresses of the chain's DROP rules). -/
def Firewall.is_blocked (fw : Firewall) (mac : String) : Bool :=
  decide (mac ∈ fw.rules)

/-- One entry of the global `threat_log` list. -/
structure LogEntry where
  stamp : ℤ
  mac : String
  ttype : String
  severity : String
  message : String
deriving DecidableEq

/-- `log_threat`: append the entry, then `pop(0)` while the length
exceeds 100 (the code's single `if` suffices because the log only
grows one entry at a time). -/
def log_threat (log : List LogEntry) (e : LogEntry) : List LogEntry :=
  let l := log ++ [e]
  if 100 < l.length then l.tail else l

/-- `ThreatDetector.analyze_packet`.  Takes the global
`authorized_macs`, the configured `AUTO_BLOCK_THRESHOLD`, the global
`packet_rates` map and the current `time.time()`; returns the threat
list together with the mutated `packet_rates`.

Rule order as in the source: the deauth signature check, then the
rate check (which appends the timestamp, prunes entries older than
10 s and compares `len(window)/10.0` with the threshold), then the
whitelist check that reports any MAC absent from `authorized_macs`. -/
def analyze_packet (auth : Finset String) (thr : ℚ) (rates : String → List ℤ)
    (p : Packet) (t : ℤ) : List Threat × (String → List ℤ) :=
  let deauthThreats : List Threat :=
    if p.packet_type = some "deauth" then
      [⟨"deauthentication_attack", "high", "Deauthentication packet detected"⟩]
    else []
  let mac := p.mac.getD ""
  let rateRes : List Threat × (String → List ℤ) :=
    if mac = "" then ([], rates)
    else
      let lst := (rates mac ++ [t]).filter (fun s => t - s < 10)
      let pps : ℚ := (lst.length : ℚ) / 10
      let floodThreats : List Threat :=
        if thr < pps then [⟨"packet_flood", "critical", "High packet rate"⟩] else []
      (floodThreats, Function.update rates mac lst)
  let unauthThreats : List Threat :=
    if mac ∈ auth then []
    else [⟨"unauthorized_device", "medium", "Device not in authorized list"⟩]
  (deauthThreats ++ rateRes.1 ++ unauthThreats, rateRes.2)

/-- The whole mutable state of `Server.py` that the modelled handlers
touch (the `packets` ring and `sensors` map carry no behaviour the
claims mention and are omitted). -/
structure SState where
  devices : String → Option Device
  blocked_macs : Finset String
  authorized_macs : Finset String
  packet_rates : String → List ℤ
  threat_log : List LogEntry
  fw : Firewall

/-- The device upsert of `receive_packet` (lines creating or updating
`devices[mac]`; timestamps are `datetime.now()` = `t`). -/
def upsertDevice (devices : String → Option Device) (auth : Finset String)
    (mac : String) (p : Packet) (t : ℤ) : String → Option Device :=
  match devices mac with
  | none =>
      Function.update devices mac (some
        { first_seen := t, last_seen := t, packet_count := 1,
          rssi := p.rssi.getD (-99), channel := p.channel.getD 0,
          authorized := decide (mac ∈ auth), threat_level := "normal",
          blocked := false })
  | some d =>
      Function.update devices mac (some
        { d with last_seen := t, packet_count := d.packet_count + 1,
                 rssi := p.rssi.getD d.rssi, channel := p.channel.getD d.channel })

/-- Overwrite the `blocked` field of `devices[mac]` (no-op when the
key is absent, which the handler never encounters). -/
def setBlocked (devices : String → Option Device) (mac : String) (b : Bool) :
    String → Option Device :=
  match devices mac with
  | none => devices
  | some d => Function.update devices mac (some { d with blocked := b })

/-- Overwrite the `threat_level` field of `devices[mac]`. -/
def setThreatLevel (devices : String → Option Device) (mac : String) (lvl : String) :
    String → Option Device :=
  match devices mac with
  | none => devices
  | some d => Function.update devices mac (some { d with threat_level := lvl })

/-- Accumulator of the `for threat in threats` loop of
`receive_packet`. -/
structure TAcc where
  log : List LogEntry
  blocked_macs : Finset String
  devices : String → Option Device
  fw : Firewall
  auto_blocked : Bool

/-- One iteration of the threat loop: log the threat, then — for a
`critical` finding on a device whose stored `authorized` flag is
false — attempt `iptables.block_mac` and, on success, record the
block. -/
def processThreat (mac : String) (t : ℤ) (blockOk : Bool) (acc : TAcc) (th : Threat) : TAcc :=
  let acc := { acc with
    log := log_threat acc.log ⟨t, mac, th.ttype, th.severity, th.description⟩ }
  let authFlag := ((acc.devices mac).map Device.authorized).getD false
  if th.severity = "critical" ∧ authFlag = false then
    let res := acc.fw.block_mac blockOk mac
    if res.1 then
      { acc with fw := res.2, blocked_macs := insert mac acc.blocked_macs,
                 devices := setBlocked acc.devices mac true, auto_blocked := true }
    else { acc with fw := res.2 }
  else acc

/-- What `POST /api/packet` returns and leaves behind. -/
structure RPRes where
  st : SState
  threats : List Threat
  blocked : Bool
  authorized : Bool
  auto_blocked : Bool

/-- `receive_packet` (the `/api/packet` handler of `Server.py`):
device upsert, blocked-flag refresh from iptables, threat analysis,
the auto-block loop, the threat-level update, and the final 30 s
rate-window append.  `t` is the handler's clock reading; `blockOk`
is the success oracle for any `iptables -A` issued. -/
def receive_packet (thr : ℚ) (blockOk : Bool) (st : SState) (p : Packet) (t : ℤ) : RPRes :=
  let mac := p.mac.getD "00:00:00:00:00:00"
  let devices1 := upsertDevice st.devices st.authorized_macs mac p t
  let iptablesBlocked := st.fw.is_blocked mac
  let devices2 := setBlocked devices1 mac (iptablesBlocked || decide (mac ∈ st.blocked_macs))
  let ar := analyze_packet st.authorized_macs thr st.packet_rates p t
  let threats := ar.1
  let acc0 : TAcc := ⟨st.threat_log, st.blocked_macs, devices2, st.fw, false⟩
  let acc := threats.foldl (processThreat mac t blockOk) acc0
  let devices3 :=
    match threats with
    | [] => acc.devices
    | th :: _ => setThreatLevel acc.devices mac th.severity
  let lst := (ar.2 mac ++ [t]).filter (fun s => t - s < 30)
  let rates2 := Function.update ar.2 mac lst
  { st := { devices := devices3, blocked_macs := acc.blocked_macs,
            authorized_macs := st.authorized_macs, packet_rates := rates2,
            threat_log := acc.log, fw := acc.fw },
    threats := threats,
    blocked := ((devices3 mac).map Device.blocked).getD false,
    authorized := ((devices3 mac).map Device.authorized).getD false,
    auto_blocked := acc.auto_blocked }

/-- `POST /api/authorize/<mac>`: uppercase, add to `authorized_macs`;
when the MAC is in `blocked_macs`, discard it there and call
`iptables.unblock_mac` (result ignored); finally set the device's
flags when a record exists. -/
def authorize_mac (unblockOk : Bool) (st : SState) (mac : String) : SState :=
  let M := pyUpper mac
  let auth' := insert M st.authorized_macs
  let bf :=
    if M ∈ st.blocked_macs then
      (st.blocked_macs.erase M, (st.fw.unblock_mac unblockOk M).2)
    else (st.blocked_macs, st.fw)
  let devices' :=
    match st.devices M with
    | some d => Function.update st.devices M (some { d with authorized := true, blocked := false })
    | none => st.devices
  { st with authorized_macs := auth', blocked_macs := bf.1, fw := bf.2, devices := devices' }

/-- `POST /api/unauthorize/<mac>`: uppercase, discard from
`authorized_macs`, clear the device's `authorized` flag. -/
def unauthorize_mac (st : SState) (mac : String) : SState :=
  let M := pyUpper mac
  let devices' :=
    match st.devices M with
    | some d => Function.update st.devices M (some { d with authorized := false })
    | none => st.devices
  { st with authorized_macs := st.authorized_macs.erase M, devices := devices' }

/-- `POST /api/device/<mac>/toggle_auth`. -/
def toggle_authorization (st : SState) (mac : String) : SState :=
  let M := pyUpper mac
  if M ∈ st.authorized_macs then
    let devices' :=
      match st.devices M with
      | some d => Function.update st.devices M (some { d with authorized := false })
      | none => st.devices
    { st with authorized_macs := st.authorized_macs.erase M, devices := devices' }
  else
    let devices' :=
      match st.devices M with
      | some d => Function.update st.devices M (some { d with authorized := true })
      | none => st.devices
    { st with authorized_macs := insert M st.authorized_macs, devices := devices' }

/-- `POST /api/device/<mac>/toggle_block` (manual path; the result of
the iptables call is ignored by the handler). -/
def toggle_block (ok : Bool) (st : SState) (mac : String) : SState :=
  let M := pyUpper mac
  if M ∈ st.blocked_macs ∨ st.fw.is_blocked M = true then
    { st with blocked_macs := st.blocked_macs.erase M,
              fw := (st.fw.unblock_mac ok M).2,
              devices := setBlocked st.devices M false }
  else
    { st with blocked_macs := insert M st.blocked_macs,
              fw := (st.fw.block_mac ok M).2,
              devices := setBlocked st.devices M true }

/-- `POST /api/unblock/<mac>` (manual path). -/
def unblock_device (ok : Bool) (st : SState) (mac : String) : SState :=
  let M := pyUpper mac
  { st with blocked_macs := st.blocked_macs.erase M,
            fw := (st.fw.unblock_mac ok M).2,
            devices := setBlocked st.devices M false }

/-- `POST /api/clear_blocks`: flush the chain (`ok` = success of
`iptables -F`), clear `blocked_macs`, clear every device's `blocked`
flag. -/
def clear_all_blocks (ok : Bool) (st : SState) : SState :=
  { st with fw := if ok then ⟨∅⟩ else st.fw,
            blocked_macs := ∅,
            devices := fun m => (st.devices m).map (fun d => { d with blocked := false }) }

/-- External events driving the `Server.py` state (each carries the
success oracles of the subprocess calls it may make and, for packet
ingestion, the handler's clock reading). -/
inductive Event where
  | packet (blockOk : Bool) (p : Packet) (t : ℤ)
  | authorize (unblockOk : Bool) (mac : String)
  | unauthorize (mac : String)
  | toggleAuth (mac : String)
  | toggleBlock (ok : Bool) (mac : String)
  | unblockDev (ok : Bool) (mac : String)
  | clearBlocks (ok : Bool)

/-- One event against the shared state. -/
def step (thr : ℚ) (st : SState) : Event → SState
  | .packet ok p t => (receive_packet thr ok st p t).st
  | .authorize ok mac => authorize_mac ok st mac
  | .unauthorize mac => unauthorize_mac st mac
  | .toggleAuth mac => toggle_authorization st mac
  | .toggleBlock ok mac => toggle_block ok st mac
  | .unblockDev ok mac => unblock_device ok st mac
  | .clearBlocks ok => clear_all_blocks ok st

/-- Process start: empty maps, the `WHITELIST_MACS` whitelist, a
fresh iptables chain. -/
def init : SState :=
  { devices := fun _ => none, blocked_macs := ∅,
    authorized_macs := {"AA:BB:CC:DD:EE:FF", "11:22:33:44:55:66"},
    packet_rates := fun _ => [], threat_log := [], fw := ⟨∅⟩ }

/-- The state after a sequence of events from process start. -/
def run (thr : ℚ) (es : List Event) : SState :=
  es.foldl (step thr) init

end SP

/-! ## `server.py` (namespace `Srv`) -/

namespace Srv

/-- One telemetry JSON body as read by `server.py`. -/
structure Packet where
  mac : Option String
  ssid : Option String
  attack_type : Option String
  rssi : Option ℤ
  channel : Option ℤ
deriving DecidableEq

/-- One entry of `devices[mac]` in `server.py`. -/
structure Device where
  first_seen : ℤ
  last_seen : ℤ
  packet_count : ℕ
  rssi : ℤ
  channel : ℤ
  attack_types : Finset String
  authorized : Bool
deriving DecidableEq

/-- The iptables state `server.py` manipulates: MAC-DROP rules of the
`INPUT` and `FORWARD` chains. -/
structure Fw where
  input : Finset String
  forward : Finset String
deriving DecidableEq

/-- The sqlite `blocked_devices` table, reduced to the set of MACs
whose row has `status='blocked'` (`mac` is a UNIQUE column and
`INSERT OR REPLACE` keeps one row per MAC). -/
abbrev BlockDb := Finset String

/-- One entry of the in-memory `threat_log` of `server.py`. -/
structure LogEntry where
  stamp : ℤ
  mac : String
  ttype : String
  reason : String
  rssi : ℤ
deriving DecidableEq

/-- An intrusion report returned by `check_intrusion`. -/
structure Intrusion where
  mac : String
  attack_type : String
  ssid : String
  rssi : ℤ
  reason : String
deriving DecidableEq

/-- `check_intrusion`: normalize the MAC, skip empty / broadcast-zero
MACs and authorized MACs, evaluate the four signature rules in
source order, and on a hit append a threat-log entry (capped at 100)
and return the intrusion record. -/
def check_intrusion (auth : Finset String) (ssidCfg : String)
    (log : List LogEntry) (p : Packet) (t : ℤ) : Option Intrusion × List LogEntry :=
  let mac := pyUpper (p.mac.getD "")
  let ssid := p.ssid.getD ""
  let atk := p.attack_type.getD ""
  let rssi := p.rssi.getD (-99)
  if mac = "" ∨ mac = "00:00:00:00:00:00" then (none, log)
  else if mac ∈ auth then (none, log)
  else
    let reasons : List String :=
      (if atk = "auth_attempt" ∧ ssid = ssidCfg then
        ["Authentication attempt on " ++ ssidCfg] else []) ++
      (if atk = "association" ∧ ssid = ssidCfg then
        ["Association request on " ++ ssidCfg] else []) ++
      (if atk = "deauth_attack" then ["Deauthentication attack detected"] else []) ++
      (if atk = "probe_request" ∧ ssid = ssidCfg then
        ["Probing for " ++ ssidCfg] else [])
    if reasons = [] then (none, log)
    else
      let reason := String.intercalate " | " reasons
      let l := log ++ [⟨t, mac, atk, reason, rssi⟩]
      let log' := if 100 < l.length then l.tail else l
      (some ⟨mac, atk, ssid, rssi, reason⟩, log')

/-- The block-side state of `server.py`: the firewall and the sqlite
block table. -/
structure BState where
  fw : Fw
  db : BlockDb
deriving DecidableEq

/-- `block_with_iptables`: uppercase, grep the `INPUT` listing for
the MAC (present iff a rule is installed); when absent, run the two
`iptables -A` inserts — their exit codes are captured but never
inspected, so `ok1`/`ok2` only decide whether a rule appears — then
unconditionally `log_blocked_device` (its own failure is likewise
ignored: `okDb`) and return `True`.  Only a raised exception
(outside this model's branches) returns `False`. -/
def block_with_iptables (ok1 ok2 okDb : Bool) (s : BState) (mac : String) :
    Bool × BState :=
  let M := pyUpper mac
  if M ∈ s.fw.input then (false, s)
  else
    let input' := if ok1 then insert M s.fw.input else s.fw.input
    let forward' := if ok2 then insert M s.fw.forward else s.fw.forward
    let db' := if okDb then insert M s.db else s.db
    (true, ⟨⟨input', forward'⟩, db'⟩)

/-- `unblock_mac` of `server.py`: uppercase, run the two `iptables -D`
deletes with `2>/dev/null` (exit codes never inspected — the rule is
removed when present), mark the row unblocked (`okDb` = sqlite
success), and return `True`. -/
def unblock_mac (okDb : Bool) (s : BState) (mac : String) : Bool × BState :=
  let M := pyUpper mac
  (true, ⟨⟨s.fw.input.erase M, s.fw.forward.erase M⟩,
          if okDb then s.db.erase M else s.db⟩)

/-- Accumulator of one `auto_blocking_thread` cycle. -/
structure SweepAcc where
  bst : BState
  log : List LogEntry
  processed : Finset String
  emails : ℕ

/-- One packet inside a sweep cycle: run `check_intrusion`; on an
intrusion by a not-yet-processed MAC whose attack type is in the
auto-block list, call `block_with_iptables` and send the e-mail
alert only when it returned `True`. -/
def sweepStep (auth : Finset String) (ssidCfg : String) (ok1 ok2 okDb : Bool) (t : ℤ)
    (acc : SweepAcc) (p : Packet) : SweepAcc :=
  let ci := check_intrusion auth ssidCfg acc.log p t
  match ci.1 with
  | none => { acc with log := ci.2 }
  | some i =>
    if i.mac ∈ acc.processed then { acc with log := ci.2 }
    else
      let processed' := insert i.mac acc.processed
      if i.attack_type = "auth_attempt" ∨ i.attack_type = "association" ∨
          i.attack_type = "deauth_attack" then
        let res := block_with_iptables ok1 ok2 okDb acc.bst i.mac
        if res.1 then
          { bst := res.2, log := ci.2, processed := processed', emails := acc.emails + 1 }
        else
          { acc with bst := res.2, log := ci.2, processed := processed' }
      else { acc with log := ci.2, processed := processed' }

/-- One cycle of `auto_blocking_thread` over the recent packet
window. -/
def sweepCycle (auth : Finset String) (ssidCfg : String) (ok1 ok2 okDb : Bool) (t : ℤ)
    (acc : SweepAcc) (ps : List Packet) : SweepAcc :=
  ps.foldl (sweepStep auth ssidCfg ok1 ok2 okDb t) acc

/-- Uppercase-hex-and-colons MAC shape tested by
`re.match(r'^([0-9A-F]\x7b2\x7d:)\x7b5\x7d[0-9A-F]\x7b2\x7d$', ...)`
in `authorize_mac`. -/
def isHexUpper (c : Char) : Bool :=
  ('0' ≤ c ∧ c ≤ '9') ∨ ('A' ≤ c ∧ c ≤ 'F')

/-- Decide the MAC regex on the string's characters. -/
def validMac (s : String) : Bool :=
  match s.data with
  | [a, b, c1, c, d, c2, e, f, c3, g, h, c4, i, j, c5, k, l] =>
    c1 = ':' ∧ c2 = ':' ∧ c3 = ':' ∧ c4 = ':' ∧ c5 = ':' ∧
    ([a, b, c, d, e, f, g, h, i, j, k, l].all isHexUpper)
  | _ => false

/-- The full mutable state of `server.py`. -/
structure FState where
  devices : String → Option Device
  authorized_macs : Finset String
  threat_log : List LogEntry
  bst : BState

/-- `POST /api/authorize/<mac>` of `server.py`: uppercase, validate
the format, add to `authorized_macs`, set the device's `authorized`
flag, persist the list.  Note: no unblock of any kind is performed
here — the firewall and the block table are untouched. -/
def authorize_mac (st : FState) (mac : String) : FState :=
  let M := pyUpper mac
  if validMac M = false then st
  else
    let devices' :=
      match st.devices M with
      | some d => Function.update st.devices M (some { d with authorized := true })
      | none => st.devices
    { st with authorized_macs := insert M st.authorized_macs, devices := devices' }

/-- `POST /api/unauthorize/<mac>` of `server.py`. -/
def unauthorize_mac (st : FState) (mac : String) : FState :=
  let M := pyUpper mac
  let devices' :=
    match st.devices M with
    | some d => Function.update st.devices M (some { d with authorized := false })
    | none => st.devices
  { st with authorized_macs := st.authorized_macs.erase M, devices := devices' }

/-- The create-or-update branch of `server.py`'s `receive_packet`
for the record stored at the (already normalized) key `mac`. -/
def upsertBase (devices : String → Option Device) (auth : Finset String)
    (mac : String) (p : Packet) (t : ℤ) : Device :=
  match devices mac with
  | none =>
      { first_seen := t, last_seen := t, packet_count := 1,
        rssi := p.rssi.getD (-99), channel := p.channel.getD 0,
        attack_types := ∅, authorized := decide (mac ∈ auth) }
  | some d =>
      { d with last_seen := t, packet_count := d.packet_count + 1,
               rssi := p.rssi.getD d.rssi }

/-- The `if 'attack_type' in data and data['attack_type']` step of
`server.py`'s `receive_packet`: add the non-empty label to the
record's `attack_types` set. -/
def addAttackLabel (d : Device) (atk : Option String) : Device :=
  match atk with
  | some a => if a = "" then d else { d with attack_types := insert a d.attack_types }
  | none => d

/-- The device upsert of `server.py`'s `receive_packet`: the MAC is
uppercased before any lookup; empty or broadcast-zero MACs are
skipped; the attack-type label, when present and non-empty, is added
to the record's `attack_types` set in either branch. -/
def receive_packet (auth : Finset String) (devices : String → Option Device)
    (p : Packet) (t : ℤ) : String → Option Device :=
  let mac := pyUpper (p.mac.getD "")
  if mac = "" ∨ mac = "00:00:00:00:00:00" then devices
  else
    Function.update devices mac
      (some (addAttackLabel (upsertBase devices auth mac p t) p.attack_type))

end Srv

/-! ## Derived definitions used by the statements -/

namespace SP

/-- The per-identifier effect of one `receive_packet` call on the
`packet_rates` window: the append-and-10-second-prune done inside
`analyze_packet`, followed by the second append-and-30-second-prune
at the end of the handler. -/
def ratesStep (l : List ℤ) (t : ℤ) : List ℤ :=
  ((l ++ [t]).filter (fun s => t - s < 10) ++ [t]).filter (fun s => t - s < 30)

/-- Consistency of the stored per-device `authorized` flag with
membership in `authorized_macs`: this is what the auto-block guard
of `receive_packet` actually reads. -/
def AuthInv (st : SState) : Prop :=
  ∀ m d, st.devices m = some d → m ∈ st.authorized_macs → d.authorized = true

/-- Scenario B of the spec: a telemetry record from
`11:22:33:44:55:66` with no attack label. -/
def scenarioBPacket : Packet :=
  { mac := some "11:22:33:44:55:66", packet_type := none, rssi := none, channel := none }

/-- Arrival times of the first 14 records of scenario B (all within
10 seconds of the 15th arrival at `t = 2`). -/
def scenarioBTimes : List ℤ := [0, 0, 0, 0, 0, 1, 1, 1, 1, 1, 2, 2, 2, 2]

/-- The first 14 ingestion events of scenario B. -/
def scenarioBEvents : List Event :=
  scenarioBTimes.map (fun t => Event.packet true scenarioBPacket t)

/-- The server state after the first 14 records of scenario B. -/
def scenarioBSt : SState := run 10 scenarioBEvents

end SP

/-! ## General helper lemmas -/

/-- `Char.ofNat` of a valid code point keeps the code point. -/
theorem toNat_ofNat_valid (n : Nat) (h : n.isValidChar) : (Char.ofNat n).toNat = n := by
  rw [Char.ofNat, dif_pos h]
  rfl

/-- Unfold `Char.toUpper` into its arithmetic form. -/
theorem charToUpper_eq (c : Char) :
    c.toUpper = if 97 ≤ c.toNat ∧ c.toNat ≤ 122 then Char.ofNat (c.toNat - 32) else c := rfl

/-- `Char.toUpper` is idempotent. -/
theorem charToUpper_toUpper (c : Char) : c.toUpper.toUpper = c.toUpper := by
  by_cases h : 97 ≤ c.toNat ∧ c.toNat ≤ 122
  · have hv : Nat.isValidChar (c.toNat - 32) := Or.inl (by omega)
    have h1 : (Char.ofNat (c.toNat - 32)).toNat = c.toNat - 32 := toNat_ofNat_valid _ hv
    rw [charToUpper_eq c, if_pos h, charToUpper_eq, h1, if_neg (by omega)]
  · rw [charToUpper_eq c, if_neg h, charToUpper_eq c, if_neg h]

/-- `pyUpper` is idempotent (uppercasing an uppercased MAC is a
no-op). -/
theorem pyUpper_pyUpper (s : String) : pyUpper (pyUpper s) = pyUpper s := by
  unfold pyUpper
  simp [List.map_map, Function.comp_def, charToUpper_toUpper]

/-- The rate comparison `len(window)/10.0 > threshold` of
`analyze_packet`, rewritten without division. -/
theorem flood_iff (thr : ℚ) (n : ℕ) : (thr < (n : ℚ) / 10) ↔ (thr * 10 < (n : ℚ)) := by
  rw [lt_div_iff₀ (by norm_num : (0:ℚ) < 10)]

/-! ## Lemmas about the `Server.py` model -/

namespace SP

theorem setBlocked_authMap (devices : String → Option Device) (mac : String) (b : Bool)
    (m : String) :
    ((setBlocked devices mac b) m).map Device.authorized
      = (devices m).map Device.authorized := by
  rcases hd : devices mac with _ | d
  · simp [setBlocked, hd]
  · by_cases hm : m = mac
    · subst hm
      simp [setBlocked, hd, Function.update_same]
    · simp [setBlocked, hd, Function.update_noteq hm]

theorem setThreatLevel_authMap (devices : String → Option Device) (mac lvl : String)
    (m : String) :
    ((setThreatLevel devices mac lvl) m).map Device.authorized
      = (devices m).map Device.authorized := by
  rcases hd : devices mac with _ | d
  · simp [setThreatLevel, hd]
  · by_cases hm : m = mac
    · subst hm
      simp [setThreatLevel, hd, Function.update_same]
    · simp [setThreatLevel, hd, Function.update_noteq hm]

theorem block_mac_failOracle (fw : Firewall) (mac : String) :
    fw.block_mac false mac = (false, fw) := by
  unfold Firewall.block_mac
  split <;> simp

theorem processThreat_authMap (mac : String) (t : ℤ) (ok : Bool) (acc : TAcc) (th : Threat)
    (m : String) :
    ((processThreat mac t ok acc th).devices m).map Device.authorized
      = (acc.devices m).map Device.authorized := by
  unfold processThreat
  dsimp only
  split
  · split
    · simp [setBlocked_authMap]
    · rfl
  · rfl

theorem foldl_processThreat_authMap (mac : String) (t : ℤ) (ok : Bool) (ths : List Threat)
    (acc : TAcc) (m : String) :
    ((ths.foldl (processThreat mac t ok) acc).devices m).map Device.authorized
      = (acc.devices m).map Device.authorized := by
  induction ths generalizing acc with
  | nil => rfl
  | cons th ths ih =>
      rw [List.foldl_cons, ih, processThreat_authMap]

theorem processThreat_log (mac : String) (t : ℤ) (ok : Bool) (acc : TAcc) (th : Threat) :
    (processThreat mac t ok acc th).log
      = log_threat acc.log ⟨t, mac, th.ttype, th.severity, th.description⟩ := by
  unfold processThreat
  dsimp only
  split
  · split <;> rfl
  · rfl

theorem processThreat_of_authorized (mac : String) (t : ℤ) (ok : Bool) (acc : TAcc)
    (th : Threat) (h : ((acc.devices mac).map Device.authorized).getD false = true) :
    processThreat mac t ok acc th
      = { acc with log := log_threat acc.log ⟨t, mac, th.ttype, th.severity, th.description⟩ } := by
  unfold processThreat
  rw [if_neg]
  intro hc
  rw [h] at hc
  exact absurd hc.2 (by simp)

theorem foldl_processThreat_of_authorized (mac : String) (t : ℤ) (ok : Bool)
    (ths : List Threat) (acc : TAcc)
    (h : ((acc.devices mac).map Device.authorized).getD false = true) :
    (ths.foldl (processThreat mac t ok) acc).fw = acc.fw ∧
    (ths.foldl (processThreat mac t ok) acc).blocked_macs = acc.blocked_macs ∧
    (ths.foldl (processThreat mac t ok) acc).auto_blocked = acc.auto_blocked ∧
    (ths.foldl (processThreat mac t ok) acc).devices = acc.devices := by
  induction ths generalizing acc with
  | nil => exact ⟨rfl, rfl, rfl, rfl⟩
  | cons th ths ih =>
      rw [List.foldl_cons, processThreat_of_authorized mac t ok acc th h]
      exact ih _ h

theorem processThreat_blockOk_false (mac : String) (t : ℤ) (acc : TAcc) (th : Threat) :
    processThreat mac t false acc th
      = { acc with log := log_threat acc.log ⟨t, mac, th.ttype, th.severity, th.description⟩ } := by
  unfold processThreat
  dsimp only
  split
  · rw [block_mac_failOracle]
    simp
  · rfl

theorem foldl_processThreat_blockOk_false (mac : String) (t : ℤ) (ths : List Threat)
    (acc : TAcc) :
    (ths.foldl (processThreat mac t false) acc).fw = acc.fw ∧
    (ths.foldl (processThreat mac t false) acc).blocked_macs = acc.blocked_macs ∧
    (ths.foldl (processThreat mac t false) acc).auto_blocked = acc.auto_blocked ∧
    (ths.foldl (processThreat mac t false) acc).devices = acc.devices := by
  induction ths generalizing acc with
  | nil => exact ⟨rfl, rfl, rfl, rfl⟩
  | cons th ths ih =>
      rw [List.foldl_cons, processThreat_blockOk_false]
      exact ih _

theorem log_threat_length_le (log : List LogEntry) (e : LogEntry)
    (h : log.length ≤ 100) : (log_threat log e).length ≤ 100 := by
  unfold log_threat
  dsimp only
  split
  · simp only [List.length_tail, List.length_append, List.length_singleton]
    omega
  · rename_i hc
    simp only [List.length_append, List.length_singleton] at hc ⊢
    omega

theorem log_threat_at_capacity (log : List LogEntry) (e : LogEntry)
    (h : log.length = 100) : log_threat log e = log.tail ++ [e] := by
  unfold log_threat
  rw [if_pos (by simp [h])]
  cases log with
  | nil => simp at h
  | cons a l => simp

theorem foldl_processThreat_log_le (mac : String) (t : ℤ) (ok : Bool) (ths : List Threat)
    (acc : TAcc) (h : acc.log.length ≤ 100) :
    (ths.foldl (processThreat mac t ok) acc).log.length ≤ 100 := by
  induction ths generalizing acc with
  | nil => exact h
  | cons th ths ih =>
      rw [List.foldl_cons]
      exact ih _ (by rw [processThreat_log]; exact log_threat_length_le _ _ h)

theorem processThreat_devices_other (mac : String) (t : ℤ) (ok : Bool) (acc : TAcc)
    (th : Threat) (k : String) (hk : k ≠ mac) :
    (processThreat mac t ok acc th).devices k = acc.devices k := by
  unfold processThreat
  dsimp only
  split
  · split
    · show setBlocked acc.devices mac true k = acc.devices k
      unfold setBlocked
      rcases hd : acc.devices mac with _ | d
      · rfl
      · exact Function.update_noteq hk _ _
    · rfl
  · rfl

theorem foldl_processThreat_devices_other (mac : String) (t : ℤ) (ok : Bool)
    (ths : List Threat) (acc : TAcc) (k : String) (hk : k ≠ mac) :
    ((ths.foldl (processThreat mac t ok) acc).devices) k = acc.devices k := by
  induction ths generalizing acc with
  | nil => rfl
  | cons th ths ih =>
      rw [List.foldl_cons, ih, processThreat_devices_other _ _ _ _ _ _ hk]

theorem upsertDevice_self_none (devices : String → Option Device) (auth : Finset String)
    (mac : String) (p : Packet) (t : ℤ) (h : devices mac = none) :
    upsertDevice devices auth mac p t mac
      = some { first_seen := t, last_seen := t, packet_count := 1,
               rssi := p.rssi.getD (-99), channel := p.channel.getD 0,
               authorized := decide (mac ∈ auth), threat_level := "normal",
               blocked := false } := by
  unfold upsertDevice
  rw [h]
  exact Function.update_same _ _ _

theorem upsertDevice_self_some (devices : String → Option Device) (auth : Finset String)
    (mac : String) (p : Packet) (t : ℤ) (d : Device) (h : devices mac = some d) :
    upsertDevice devices auth mac p t mac
      = some { d with last_seen := t, packet_count := d.packet_count + 1,
                      rssi := p.rssi.getD d.rssi, channel := p.channel.getD d.channel } := by
  unfold upsertDevice
  rw [h]
  exact Function.update_same _ _ _

theorem upsertDevice_other (devices : String → Option Device) (auth : Finset String)
    (mac : String) (p : Packet) (t : ℤ) (k : String) (hk : k ≠ mac) :
    upsertDevice devices auth mac p t k = devices k := by
  unfold upsertDevice
  rcases h : devices mac with _ | d <;> exact Function.update_noteq hk _ _

theorem setBlocked_self (devices : String → Option Device) (mac : String) (b : Bool)
    (d : Device) (h : devices mac = some d) :
    setBlocked devices mac b mac = some { d with blocked := b } := by
  unfold setBlocked
  rw [h]
  exact Function.update_same _ _ _

theorem setBlocked_other (devices : String → Option Device) (mac : String) (b : Bool)
    (k : String) (hk : k ≠ mac) :
    setBlocked devices mac b k = devices k := by
  unfold setBlocked
  rcases h : devices mac with _ | d
  · rfl
  · exact Function.update_noteq hk _ _

theorem setThreatLevel_other (devices : String → Option Device) (mac lvl : String)
    (k : String) (hk : k ≠ mac) :
    setThreatLevel devices mac lvl k = devices k := by
  unfold setThreatLevel
  rcases h : devices mac with _ | d
  · rfl
  · exact Function.update_noteq hk _ _

theorem receive_st_authorized_macs (thr : ℚ) (ok : Bool) (st : SState) (p : Packet) (t : ℤ) :
    (receive_packet thr ok st p t).st.authorized_macs = st.authorized_macs := rfl

theorem receive_threats_eq (thr : ℚ) (ok : Bool) (st : SState) (p : Packet) (t : ℤ) :
    (receive_packet thr ok st p t).threats
      = (analyze_packet st.authorized_macs thr st.packet_rates p t).1 := rfl

theorem receive_auto_eq (thr : ℚ) (ok : Bool) (st : SState) (p : Packet) (t : ℤ) :
    (receive_packet thr ok st p t).auto_blocked
      = ((analyze_packet st.authorized_macs thr st.packet_rates p t).1.foldl
          (processThreat (p.mac.getD "00:00:00:00:00:00") t ok)
          ⟨st.threat_log, st.blocked_macs,
           setBlocked (upsertDevice st.devices st.authorized_macs
               (p.mac.getD "00:00:00:00:00:00") p t) (p.mac.getD "00:00:00:00:00:00")
             (st.fw.is_blocked (p.mac.getD "00:00:00:00:00:00")
               || decide (p.mac.getD "00:00:00:00:00:00" ∈ st.blocked_macs)),
           st.fw, false⟩).auto_blocked := rfl

theorem receive_st_devices_authMap (thr : ℚ) (ok : Bool) (st : SState) (p : Packet)
    (t : ℤ) (m : String) :
    ((receive_packet thr ok st p t).st.devices m).map Device.authorized
      = ((upsertDevice st.devices st.authorized_macs (p.mac.getD "00:00:00:00:00:00") p t) m).map
          Device.authorized := by
  unfold receive_packet
  dsimp only
  cases hth : (analyze_packet st.authorized_macs thr st.packet_rates p t).1 with
  | nil => rw [foldl_processThreat_authMap, setBlocked_authMap]
  | cons th tail => rw [setThreatLevel_authMap, foldl_processThreat_authMap, setBlocked_authMap]

theorem receive_st_devices_other (thr : ℚ) (ok : Bool) (st : SState) (p : Packet)
    (t : ℤ) (k : String) (hk : k ≠ p.mac.getD "00:00:00:00:00:00") :
    (receive_packet thr ok st p t).st.devices k = st.devices k := by
  unfold receive_packet
  dsimp only
  cases hth : (analyze_packet st.authorized_macs thr st.packet_rates p t).1 with
  | nil =>
      dsimp only
      rw [foldl_processThreat_devices_other _ _ _ _ _ _ hk]
      dsimp only
      rw [setBlocked_other _ _ _ _ hk, upsertDevice_other _ _ _ _ _ _ hk]
  | cons th tail =>
      dsimp only
      rw [setThreatLevel_other _ _ _ _ hk, foldl_processThreat_devices_other _ _ _ _ _ _ hk]
      dsimp only
      rw [setBlocked_other _ _ _ _ hk, upsertDevice_other _ _ _ _ _ _ hk]

theorem receive_st_rates (thr : ℚ) (ok : Bool) (st : SState) (p : Packet) (t : ℤ)
    (m : String) (hm : p.mac = some m) (hne : m ≠ "") :
    (receive_packet thr ok st p t).st.packet_rates m
      = ratesStep (st.packet_rates m) t := by
  unfold receive_packet analyze_packet ratesStep
  dsimp only
  rw [hm]
  dsimp only [Option.getD_some]
  rw [if_neg hne]
  dsimp only
  rw [Function.update_same, Function.update_same]

theorem authMap_authInv {auth : Finset String} {f g : String → Option Device}
    (hfg : ∀ m, (f m).map Device.authorized = (g m).map Device.authorized)
    (hg : ∀ m d, g m = some d → m ∈ auth → d.authorized = true) :
    ∀ m d, f m = some d → m ∈ auth → d.authorized = true := by
  intro m d hm hma
  have h2 := hfg m
  rw [hm] at h2
  rcases hgm : g m with _ | d1
  · rw [hgm] at h2
    simp at h2
  · rw [hgm] at h2
    simp only [Option.map_some'] at h2
    rw [Option.some.inj h2]
    exact hg m d1 hgm hma

theorem upsertDevice_authInv (devices : String → Option Device) (auth : Finset String)
    (mac : String) (p : Packet) (t : ℤ)
    (h : ∀ m d, devices m = some d → m ∈ auth → d.authorized = true) :
    ∀ m d, upsertDevice devices auth mac p t m = some d → m ∈ auth → d.authorized = true := by
  intro m d hm hma
  by_cases hmm : m = mac
  · subst hmm
    rcases hd : devices m with _ | d0
    · rw [upsertDevice_self_none _ _ _ _ _ hd] at hm
      rw [← Option.some.inj hm]
      simp [hma]
    · rw [upsertDevice_self_some _ _ _ _ _ _ hd] at hm
      rw [← Option.some.inj hm]
      exact h m d0 hd hma
  · rw [upsertDevice_other _ _ _ _ _ _ hmm] at hm
    exact h m d hm hma

theorem receive_authInv (thr : ℚ) (ok : Bool) (st : SState) (p : Packet) (t : ℤ)
    (h : AuthInv st) : AuthInv (receive_packet thr ok st p t).st := by
  intro m d hm hma
  rw [receive_st_authorized_macs] at hma
  exact authMap_authInv (receive_st_devices_authMap thr ok st p t)
    (upsertDevice_authInv st.devices st.authorized_macs _ p t h) m d hm hma

theorem authorize_devices_none (ok : Bool) (st : SState) (mac : String)
    (hd : st.devices (pyUpper mac) = none) :
    (authorize_mac ok st mac).devices = st.devices := by
  unfold authorize_mac
  dsimp only
  rw [hd]

theorem authorize_devices_some (ok : Bool) (st : SState) (mac : String) (d0 : Device)
    (hd : st.devices (pyUpper mac) = some d0) :
    (authorize_mac ok st mac).devices
      = Function.update st.devices (pyUpper mac)
          (some { d0 with authorized := true, blocked := false }) := by
  unfold authorize_mac
  dsimp only
  rw [hd]

theorem authorize_auth_set (ok : Bool) (st : SState) (mac : String) :
    (authorize_mac ok st mac).authorized_macs
      = insert (pyUpper mac) st.authorized_macs := rfl

theorem unauthorize_devices_none (st : SState) (mac : String)
    (hd : st.devices (pyUpper mac) = none) :
    (unauthorize_mac st mac).devices = st.devices := by
  unfold unauthorize_mac
  dsimp only
  rw [hd]

theorem unauthorize_devices_some (st : SState) (mac : String) (d0 : Device)
    (hd : st.devices (pyUpper mac) = some d0) :
    (unauthorize_mac st mac).devices
      = Function.update st.devices (pyUpper mac) (some { d0 with authorized := false }) := by
  unfold unauthorize_mac
  dsimp only
  rw [hd]

theorem unauthorize_auth_set (st : SState) (mac : String) :
    (unauthorize_mac st mac).authorized_macs
      = st.authorized_macs.erase (pyUpper mac) := rfl

theorem toggle_authorization_eq_of_mem (st : SState) (mac : String)
    (hc : pyUpper mac ∈ st.authorized_macs) :
    toggle_authorization st mac = unauthorize_mac st mac := by
  unfold toggle_authorization unauthorize_mac
  rw [if_pos hc]

theorem toggle_authorization_eq_of_not_mem (st : SState) (mac : String)
    (hc : pyUpper mac ∉ st.authorized_macs) :
    toggle_authorization st mac
      = { st with authorized_macs := insert (pyUpper mac) st.authorized_macs,
                  devices := match st.devices (pyUpper mac) with
                    | some d => Function.update st.devices (pyUpper mac)
                        (some { d with authorized := true })
                    | none => st.devices } := by
  unfold toggle_authorization
  rw [if_neg hc]

theorem authorize_authInv (ok : Bool) (st : SState) (mac : String)
    (h : AuthInv st) : AuthInv (authorize_mac ok st mac) := by
  intro m d hm hma
  rw [authorize_auth_set] at hma
  rcases hd : st.devices (pyUpper mac) with _ | d0
  · rw [authorize_devices_none ok st mac hd] at hm
    rcases Finset.mem_insert.1 hma with hem | hem
    · subst hem
      rw [hd] at hm
      cases hm
    · exact h m d hm hem
  · rw [authorize_devices_some ok st mac d0 hd] at hm
    by_cases hmm : m = pyUpper mac
    · subst hmm
      rw [Function.update_same] at hm
      rw [← Option.some.inj hm]
    · rw [Function.update_noteq hmm] at hm
      rcases Finset.mem_insert.1 hma with hem | hem
      · exact absurd hem hmm
      · exact h m d hm hem

theorem unauthorize_authInv (st : SState) (mac : String)
    (h : AuthInv st) : AuthInv (unauthorize_mac st mac) := by
  intro m d hm hma
  rw [unauthorize_auth_set] at hma
  have hmm : m ≠ pyUpper mac := (Finset.mem_erase.1 hma).1
  have hmem : m ∈ st.authorized_macs := (Finset.mem_erase.1 hma).2
  rcases hd : st.devices (pyUpper mac) with _ | d0
  · rw [unauthorize_devices_none st mac hd] at hm
    exact h m d hm hmem
  · rw [unauthorize_devices_some st mac d0 hd] at hm
    rw [Function.update_noteq hmm] at hm
    exact h m d hm hmem

theorem toggle_auth_not_mem_auth_set (st : SState) (mac : String)
    (hc : pyUpper mac ∉ st.authorized_macs) :
    (toggle_authorization st mac).authorized_macs
      = insert (pyUpper mac) st.authorized_macs := by
  rw [toggle_authorization_eq_of_not_mem st mac hc]

theorem toggle_auth_not_mem_devices_none (st : SState) (mac : String)
    (hc : pyUpper mac ∉ st.authorized_macs) (hd : st.devices (pyUpper mac) = none) :
    (toggle_authorization st mac).devices = st.devices := by
  rw [toggle_authorization_eq_of_not_mem st mac hc]
  dsimp only
  rw [hd]

theorem toggle_auth_not_mem_devices_some (st : SState) (mac : String) (d0 : Device)
    (hc : pyUpper mac ∉ st.authorized_macs) (hd : st.devices (pyUpper mac) = some d0) :
    (toggle_authorization st mac).devices
      = Function.update st.devices (pyUpper mac) (some { d0 with authorized := true }) := by
  rw [toggle_authorization_eq_of_not_mem st mac hc]
  dsimp only
  rw [hd]

theorem toggle_authorization_authInv (st : SState) (mac : String)
    (h : AuthInv st) : AuthInv (toggle_authorization st mac) := by
  by_cases hc : pyUpper mac ∈ st.authorized_macs
  · rw [toggle_authorization_eq_of_mem st mac hc]
    exact unauthorize_authInv st mac h
  · intro m d hm hma
    rw [toggle_auth_not_mem_auth_set st mac hc] at hma
    rcases hd : st.devices (pyUpper mac) with _ | d0
    · rw [toggle_auth_not_mem_devices_none st mac hc hd] at hm
      rcases Finset.mem_insert.1 hma with hem | hem
      · subst hem
        rw [hd] at hm
        cases hm
      · exact h m d hm hem
    · rw [toggle_auth_not_mem_devices_some st mac d0 hc hd] at hm
      by_cases hmm : m = pyUpper mac
      · subst hmm
        rw [Function.update_same] at hm
        rw [← Option.some.inj hm]
      · rw [Function.update_noteq hmm] at hm
        rcases Finset.mem_insert.1 hma with hem | hem
        · exact absurd hem hmm
        · exact h m d hm hem

theorem toggle_block_authInv (ok : Bool) (st : SState) (mac : String)
    (h : AuthInv st) : AuthInv (toggle_block ok st mac) := by
  unfold toggle_block
  dsimp only
  split
  · exact fun m d hm hma =>
      authMap_authInv (fun m => setBlocked_authMap st.devices (pyUpper mac) false m) h m d hm hma
  · exact fun m d hm hma =>
      authMap_authInv (fun m => setBlocked_authMap st.devices (pyUpper mac) true m) h m d hm hma

theorem unblock_device_authInv (ok : Bool) (st : SState) (mac : String)
    (h : AuthInv st) : AuthInv (unblock_device ok st mac) :=
  fun m d hm hma =>
    authMap_authInv (fun m => setBlocked_authMap st.devices (pyUpper mac) false m) h m d hm hma

theorem clear_all_blocks_authInv (ok : Bool) (st : SState)
    (h : AuthInv st) : AuthInv (clear_all_blocks ok st) := by
  refine fun m d hm hma => authMap_authInv (g := st.devices) (fun m => ?_) h m d hm hma
  show ((st.devices m).map _).map Device.authorized = (st.devices m).map Device.authorized
  cases st.devices m <;> rfl

theorem step_authInv (thr : ℚ) (st : SState) (e : Event)
    (h : AuthInv st) : AuthInv (step thr st e) := by
  cases e with
  | packet ok p t => exact receive_authInv thr ok st p t h
  | authorize ok mac => exact authorize_authInv ok st mac h
  | unauthorize mac => exact unauthorize_authInv st mac h
  | toggleAuth mac => exact toggle_authorization_authInv st mac h
  | toggleBlock ok mac => exact toggle_block_authInv ok st mac h
  | unblockDev ok mac => exact unblock_device_authInv ok st mac h
  | clearBlocks ok => exact clear_all_blocks_authInv ok st h

theorem init_authInv : AuthInv init := by
  intro m d hm
  cases hm

theorem run_authInv (thr : ℚ) (es : List Event) : AuthInv (run thr es) := by
  suffices hgen : ∀ st, AuthInv st → AuthInv (es.foldl (step thr) st) from
    hgen init init_authInv
  induction es with
  | nil => exact fun st h => h
  | cons e es ih => exact fun st h => ih _ (step_authInv thr st e h)

theorem receive_authorized_frozen (thr : ℚ) (ok : Bool) (st : SState) (p : Packet) (t : ℤ)
    (hInv : AuthInv st) (h : p.mac.getD "00:00:00:00:00:00" ∈ st.authorized_macs) :
    (receive_packet thr ok st p t).st.fw = st.fw ∧
    (receive_packet thr ok st p t).st.blocked_macs = st.blocked_macs ∧
    (receive_packet thr ok st p t).auto_blocked = false := by
  have hup : ∃ d, upsertDevice st.devices st.authorized_macs
      (p.mac.getD "00:00:00:00:00:00") p t (p.mac.getD "00:00:00:00:00:00") = some d ∧
      d.authorized = true := by
    rcases hd : st.devices (p.mac.getD "00:00:00:00:00:00") with _ | d0
    · exact ⟨_, upsertDevice_self_none _ _ _ _ _ hd, by simp [h]⟩
    · exact ⟨_, upsertDevice_self_some _ _ _ _ _ _ hd,
        show d0.authorized = true from hInv _ _ hd h⟩
  obtain ⟨d, hd, hda⟩ := hup
  have hacc : (((setBlocked (upsertDevice st.devices st.authorized_macs
      (p.mac.getD "00:00:00:00:00:00") p t) (p.mac.getD "00:00:00:00:00:00")
      (st.fw.is_blocked (p.mac.getD "00:00:00:00:00:00")
        || decide (p.mac.getD "00:00:00:00:00:00" ∈ st.blocked_macs)))
      (p.mac.getD "00:00:00:00:00:00")).map Device.authorized).getD false = true := by
    rw [setBlocked_self _ _ _ _ hd]
    simpa using hda
  obtain ⟨hfw, hbm, hab, -⟩ := foldl_processThreat_of_authorized
    (p.mac.getD "00:00:00:00:00:00") t ok
    (analyze_packet st.authorized_macs thr st.packet_rates p t).1
    ⟨st.threat_log, st.blocked_macs,
     setBlocked (upsertDevice st.devices st.authorized_macs
         (p.mac.getD "00:00:00:00:00:00") p t) (p.mac.getD "00:00:00:00:00:00")
       (st.fw.is_blocked (p.mac.getD "00:00:00:00:00:00")
         || decide (p.mac.getD "00:00:00:00:00:00" ∈ st.blocked_macs)),
     st.fw, false⟩ hacc
  refine ⟨?_, ?_, ?_⟩
  · show (receive_packet thr ok st p t).st.fw = st.fw
    unfold receive_packet
    dsimp only
    exact hfw
  · unfold receive_packet
    dsimp only
    exact hbm
  · unfold receive_packet
    dsimp only
    exact hab

end SP

/-! ## Lemmas about the `server.py` model -/

namespace Srv

theorem check_intrusion_none_of_auth (auth : Finset String) (ssidCfg : String)
    (log : List LogEntry) (p : Packet) (t : ℤ)
    (h : pyUpper (p.mac.getD "") ∈ auth) :
    check_intrusion auth ssidCfg log p t = (none, log) := by
  unfold check_intrusion
  try dsimp only
  by_cases hz : (pyUpper (p.mac.getD "") = "" ∨ pyUpper (p.mac.getD "") = "00:00:00:00:00:00")
  · rw [if_pos hz]
  · rw [if_neg hz, if_pos h]

theorem check_intrusion_fst_some (auth : Finset String) (ssidCfg : String)
    (log : List LogEntry) (p : Packet) (t : ℤ) (i : Intrusion)
    (h : (check_intrusion auth ssidCfg log p t).1 = some i) :
    i.mac ∉ auth ∧ pyUpper i.mac = i.mac := by
  unfold check_intrusion at h
  dsimp only at h
  by_cases hz : (pyUpper (p.mac.getD "") = "" ∨ pyUpper (p.mac.getD "") = "00:00:00:00:00:00")
  · rw [if_pos hz] at h
    simp at h
  · rw [if_neg hz] at h
    by_cases hmem : pyUpper (p.mac.getD "") ∈ auth
    · rw [if_pos hmem] at h
      simp at h
    · rw [if_neg hmem] at h
      try dsimp only at h
      set R : List String :=
        (if p.attack_type.getD "" = "auth_attempt" ∧ p.ssid.getD "" = ssidCfg then
          ["Authentication attempt on " ++ ssidCfg] else []) ++
        (if p.attack_type.getD "" = "association" ∧ p.ssid.getD "" = ssidCfg then
          ["Association request on " ++ ssidCfg] else []) ++
        (if p.attack_type.getD "" = "deauth_attack" then
          ["Deauthentication attack detected"] else []) ++
        (if p.attack_type.getD "" = "probe_request" ∧ p.ssid.getD "" = ssidCfg then
          ["Probing for " ++ ssidCfg] else []) with hR
      split at h
      · simp at h
      · dsimp only at h
        rw [← Option.some.inj h]
        exact ⟨hmem, pyUpper_pyUpper _⟩

theorem block_with_iptables_mem (ok1 ok2 okDb : Bool) (s : BState) (mac M : String)
    (hne : M ≠ pyUpper mac) :
    ((M ∈ (block_with_iptables ok1 ok2 okDb s mac).2.fw.input) ↔ M ∈ s.fw.input) ∧
    ((M ∈ (block_with_iptables ok1 ok2 okDb s mac).2.fw.forward) ↔ M ∈ s.fw.forward) ∧
    ((M ∈ (block_with_iptables ok1 ok2 okDb s mac).2.db) ↔ M ∈ s.db) := by
  unfold block_with_iptables
  dsimp only
  split
  · exact ⟨Iff.rfl, Iff.rfl, Iff.rfl⟩
  · cases ok1 <;> cases ok2 <;> cases okDb <;>
      exact ⟨by simp [Finset.mem_insert, hne], by simp [Finset.mem_insert, hne],
             by simp [Finset.mem_insert, hne]⟩

theorem sweepStep_mem (auth : Finset String) (ssidCfg : String) (ok1 ok2 okDb : Bool)
    (t : ℤ) (acc : SweepAcc) (p : Packet) (M : String) (hM : M ∈ auth) :
    ((M ∈ (sweepStep auth ssidCfg ok1 ok2 okDb t acc p).bst.fw.input)
        ↔ M ∈ acc.bst.fw.input) ∧
    ((M ∈ (sweepStep auth ssidCfg ok1 ok2 okDb t acc p).bst.fw.forward)
        ↔ M ∈ acc.bst.fw.forward) ∧
    ((M ∈ (sweepStep auth ssidCfg ok1 ok2 okDb t acc p).bst.db) ↔ M ∈ acc.bst.db) := by
  unfold sweepStep
  dsimp only
  split
  · exact ⟨Iff.rfl, Iff.rfl, Iff.rfl⟩
  · rename_i i heq
    obtain ⟨hicm, hiup⟩ := check_intrusion_fst_some auth ssidCfg acc.log p t i heq
    have hne : M ≠ pyUpper i.mac := by
      rw [hiup]
      intro hMe
      exact hicm (hMe ▸ hM)
    split
    · exact ⟨Iff.rfl, Iff.rfl, Iff.rfl⟩
    · split
      · split
        · exact block_with_iptables_mem ok1 ok2 okDb acc.bst i.mac M hne
        · exact block_with_iptables_mem ok1 ok2 okDb acc.bst i.mac M hne
      · exact ⟨Iff.rfl, Iff.rfl, Iff.rfl⟩

theorem sweepCycle_mem (auth : Finset String) (ssidCfg : String) (ok1 ok2 okDb : Bool)
    (t : ℤ) (ps : List Packet) (acc : SweepAcc) (M : String) (hM : M ∈ auth) :
    ((M ∈ (sweepCycle auth ssidCfg ok1 ok2 okDb t acc ps).bst.fw.input)
        ↔ M ∈ acc.bst.fw.input) ∧
    ((M ∈ (sweepCycle auth ssidCfg ok1 ok2 okDb t acc ps).bst.fw.forward)
        ↔ M ∈ acc.bst.fw.forward) ∧
    ((M ∈ (sweepCycle auth ssidCfg ok1 ok2 okDb t acc ps).bst.db) ↔ M ∈ acc.bst.db) := by
  induction ps generalizing acc with
  | nil => exact ⟨Iff.rfl, Iff.rfl, Iff.rfl⟩
  | cons p ps ih =>
      obtain ⟨h1, h2, h3⟩ := sweepStep_mem auth ssidCfg ok1 ok2 okDb t acc p M hM
      obtain ⟨g1, g2, g3⟩ := ih (sweepStep auth ssidCfg ok1 ok2 okDb t acc p)
      exact ⟨g1.trans h1, g2.trans h2, g3.trans h3⟩

theorem srv_receive_other (auth : Finset String) (devices : String → Option Device)
    (p : Packet) (t : ℤ) (k : String) (hk : k ≠ pyUpper (p.mac.getD "")) :
    receive_packet auth devices p t k = devices k := by
  unfold receive_packet
  try dsimp only
  split
  · rfl
  · exact Function.update_noteq hk _ _

theorem addAttackLabel_last_seen (d : Device) (atk : Option String) :
    (addAttackLabel d atk).last_seen = d.last_seen := by
  cases atk with
  | none => rfl
  | some a =>
      show (if a = "" then d
        else { d with attack_types := insert a d.attack_types }).last_seen = d.last_seen
      split <;> rfl

theorem addAttackLabel_packet_count (d : Device) (atk : Option String) :
    (addAttackLabel d atk).packet_count = d.packet_count := by
  cases atk with
  | none => rfl
  | some a =>
      show (if a = "" then d
        else { d with attack_types := insert a d.attack_types }).packet_count = d.packet_count
      split <;> rfl

theorem addAttackLabel_authorized (d : Device) (atk : Option String) :
    (addAttackLabel d atk).authorized = d.authorized := by
  cases atk with
  | none => rfl
  | some a =>
      show (if a = "" then d
        else { d with attack_types := insert a d.attack_types }).authorized = d.authorized
      split <;> rfl

theorem srv_receive_self (auth : Finset String) (devices : String → Option Device)
    (p : Packet) (t : ℤ)
    (hne1 : pyUpper (p.mac.getD "") ≠ "")
    (hne2 : pyUpper (p.mac.getD "") ≠ "00:00:00:00:00:00") :
    ∃ d2, receive_packet auth devices p t (pyUpper (p.mac.getD "")) = some d2 ∧
      d2.last_seen = t ∧
      d2.packet_count
        = ((devices (pyUpper (p.mac.getD ""))).map Device.packet_count).getD 0 + 1 ∧
      d2.authorized
        = ((devices (pyUpper (p.mac.getD ""))).map Device.authorized).getD
            (decide (pyUpper (p.mac.getD "") ∈ auth)) := by
  unfold receive_packet
  try dsimp only
  rw [if_neg (by push_neg; exact ⟨hne1, hne2⟩)]
  refine ⟨_, Function.update_same _ _ _, ?_, ?_, ?_⟩
  · rw [addAttackLabel_last_seen]
    unfold upsertBase
    rcases hd : devices (pyUpper (p.mac.getD "")) with _ | d0 <;> rfl
  · rw [addAttackLabel_packet_count]
    unfold upsertBase
    rcases hd : devices (pyUpper (p.mac.getD "")) with _ | d0 <;> rfl
  · rw [addAttackLabel_authorized]
    unfold upsertBase
    rcases hd : devices (pyUpper (p.mac.getD "")) with _ | d0 <;> rfl

theorem srv_authorize_bst (st : FState) (mac : String) :
    (authorize_mac st mac).bst = st.bst := by
  unfold authorize_mac
  try dsimp only
  split <;> rfl

theorem srv_authorize_log (st : FState) (mac : String) :
    (authorize_mac st mac).threat_log = st.threat_log := by
  unfold authorize_mac
  try dsimp only
  split <;> rfl

theorem srv_unauthorize_bst (st : FState) (mac : String) :
    (unauthorize_mac st mac).bst = st.bst := rfl

end Srv

/-! ## Claim-support lemmas on the `Server.py` model -/

namespace SP

theorem run_packets_rates (thr : ℚ) (ok : Bool) (pkt : Packet) (m : String)
    (hm : pkt.mac = some m) (hne : m ≠ "") (ts : List ℤ) (st : SState) :
    ((ts.map (Event.packet ok pkt)).foldl (step thr) st).packet_rates m
      = ts.foldl ratesStep (st.packet_rates m) := by
  induction ts generalizing st with
  | nil => rfl
  | cons t ts ih =>
      simp only [List.map_cons, List.foldl_cons]
      rw [ih]
      congr 1
      exact receive_st_rates thr ok st pkt t m hm hne

theorem run_packets_auth (thr : ℚ) (ok : Bool) (pkt : Packet) (ts : List ℤ) (st : SState) :
    ((ts.map (Event.packet ok pkt)).foldl (step thr) st).authorized_macs
      = st.authorized_macs := by
  induction ts generalizing st with
  | nil => rfl
  | cons t ts ih =>
      simp only [List.map_cons, List.foldl_cons]
      rw [ih]
      exact receive_st_authorized_macs thr ok st pkt t

theorem analyze_packet_nil (auth : Finset String) (thr : ℚ) (rates : String → List ℤ)
    (p : Packet) (t : ℤ) (m : String)
    (hm : p.mac = some m) (hne : m ≠ "")
    (h1 : p.packet_type ≠ some "deauth")
    (h2 : ¬ thr < ((((rates m ++ [t]).filter (fun s => t - s < 10)).length : ℚ)) / 10)
    (h3 : m ∈ auth) :
    (analyze_packet auth thr rates p t).1 = [] := by
  unfold analyze_packet
  try dsimp only
  rw [hm]
  try dsimp only [Option.getD_some]
  rw [if_neg h1, if_neg hne, if_pos h3]
  try dsimp only
  rw [if_neg h2]
  rfl

theorem analyze_packet_flood_iff (auth : Finset String) (thr : ℚ)
    (rates : String → List ℤ) (p : Packet) (t : ℤ) (m : String)
    (hm : p.mac = some m) (hne : m ≠ "") :
    ((analyze_packet auth thr rates p t).1.filter
        (fun th => th.ttype = "packet_flood") ≠ [])
      ↔ thr < ((((rates m ++ [t]).filter (fun s => t - s < 10)).length : ℚ)) / 10 := by
  unfold analyze_packet
  try dsimp only
  rw [hm]
  try dsimp only [Option.getD_some]
  rw [if_neg hne]
  try dsimp only
  rw [List.filter_append, List.filter_append]
  by_cases h2 : thr < ((((rates m ++ [t]).filter (fun s => t - s < 10)).length : ℚ)) / 10
  · rw [if_pos h2]
    simp only [iff_true, h2]
    by_cases h1 : p.packet_type = some "deauth" <;>
      by_cases h3 : m ∈ auth <;>
      simp [h1, h3]
  · rw [if_neg h2]
    simp only [iff_false, h2]
    by_cases h1 : p.packet_type = some "deauth" <;>
      by_cases h3 : m ∈ auth <;>
      simp [h1, h3]

theorem analyze_packet_no_unauthorized (auth : Finset String) (thr : ℚ)
    (rates : String → List ℤ) (p : Packet) (t : ℤ)
    (h : p.mac.getD "" ∈ auth) :
    (analyze_packet auth thr rates p t).1.filter
      (fun th => th.ttype = "unauthorized_device") = [] := by
  unfold analyze_packet
  try dsimp only
  rw [if_pos h]
  rw [List.filter_append, List.filter_append]
  by_cases h1 : p.packet_type = some "deauth" <;>
    by_cases hz : p.mac.getD "" = "" <;>
    simp [h1, hz]

theorem authorize_blocked_of_mem (ok : Bool) (st : SState) (mac : String)
    (hb : pyUpper mac ∈ st.blocked_macs) :
    (authorize_mac ok st mac).blocked_macs = st.blocked_macs.erase (pyUpper mac) ∧
    (authorize_mac ok st mac).fw = (st.fw.unblock_mac ok (pyUpper mac)).2 := by
  unfold authorize_mac
  try dsimp only
  rw [if_pos hb]
  exact ⟨rfl, rfl⟩

theorem unauthorize_blocked (st : SState) (mac : String) :
    (unauthorize_mac st mac).blocked_macs = st.blocked_macs ∧
    (unauthorize_mac st mac).fw = st.fw := ⟨rfl, rfl⟩

theorem receive_blockOk_false (thr : ℚ) (st : SState) (p : Packet) (t : ℤ) :
    (receive_packet thr false st p t).st.blocked_macs = st.blocked_macs ∧
    (receive_packet thr false st p t).st.fw = st.fw ∧
    (receive_packet thr false st p t).auto_blocked = false := by
  obtain ⟨hfw, hbm, hab, -⟩ := foldl_processThreat_blockOk_false
    (p.mac.getD "00:00:00:00:00:00") t
    (analyze_packet st.authorized_macs thr st.packet_rates p t).1
    ⟨st.threat_log, st.blocked_macs,
     setBlocked (upsertDevice st.devices st.authorized_macs
         (p.mac.getD "00:00:00:00:00:00") p t) (p.mac.getD "00:00:00:00:00:00")
       (st.fw.is_blocked (p.mac.getD "00:00:00:00:00:00")
         || decide (p.mac.getD "00:00:00:00:00:00" ∈ st.blocked_macs)),
     st.fw, false⟩
  refine ⟨?_, ?_, ?_⟩
  · unfold receive_packet
    dsimp only
    exact hbm
  · unfold receive_packet
    dsimp only
    exact hfw
  · unfold receive_packet
    dsimp only
    exact hab

theorem upsertDevice_fields (devices : String → Option Device) (auth : Finset String)
    (mac : String) (p : Packet) (t : ℤ) :
    ∃ d, upsertDevice devices auth mac p t mac = some d ∧
      d.last_seen = t ∧
      d.packet_count = ((devices mac).map Device.packet_count).getD 0 + 1 := by
  rcases hd : devices mac with _ | d0
  · exact ⟨_, upsertDevice_self_none _ _ _ _ _ hd, rfl, rfl⟩
  · exact ⟨_, upsertDevice_self_some _ _ _ _ _ _ hd, rfl, rfl⟩

theorem step_threat_log_le (thr : ℚ) (st : SState) (e : Event)
    (h : st.threat_log.length ≤ 100) : (step thr st e).threat_log.length ≤ 100 := by
  cases e with
  | packet ok p t =>
      show (receive_packet thr ok st p t).st.threat_log.length ≤ 100
      unfold receive_packet
      dsimp only
      exact foldl_processThreat_log_le _ _ _ _ _ h
  | authorize ok mac =>
      show (authorize_mac ok st mac).threat_log.length ≤ 100
      unfold authorize_mac
      dsimp only
      exact h
  | unauthorize mac => exact h
  | toggleAuth mac =>
      show (toggle_authorization st mac).threat_log.length ≤ 100
      unfold toggle_authorization
      dsimp only
      split <;> exact h
  | toggleBlock ok mac =>
      show (toggle_block ok st mac).threat_log.length ≤ 100
      unfold toggle_block
      dsimp only
      split <;> exact h
  | unblockDev ok mac => exact h
  | clearBlocks ok => exact h

theorem run_threat_log_le (thr : ℚ) (es : List Event) :
    (run thr es).threat_log.length ≤ 100 := by
  suffices hgen : ∀ st : SState, st.threat_log.length ≤ 100 →
      (es.foldl (step thr) st).threat_log.length ≤ 100 from
    hgen init (by simp [init])
  induction es with
  | nil => exact fun st h => h
  | cons e es ih => exact fun st h => ih _ (step_threat_log_le thr st e h)

theorem analyze_packet_deauth_head (auth : Finset String) (thr : ℚ)
    (rates : String → List ℤ) (p : Packet) (t : ℤ)
    (h : p.packet_type = some "deauth") :
    ∃ l, (analyze_packet auth thr rates p t).1
      = ⟨"deauthentication_attack", "high", "Deauthentication packet detected"⟩ :: l := by
  unfold analyze_packet
  try dsimp only
  rw [if_pos h]
  exact ⟨_, rfl⟩

theorem ratesStep_count (l : List ℤ) (t : ℤ) :
    (ratesStep l t).count t = l.count t + 2 := by
  unfold ratesStep
  simp [List.count_append]

theorem ratesStep_length (l : List ℤ) (t : ℤ) (h : ∀ s ∈ l, t - s < 10) :
    (ratesStep l t).length = l.length + 2 := by
  have h10 : ∀ s ∈ l ++ [t], (fun s => decide (t - s < 10)) s = true := by
    intro s hs
    rcases List.mem_append.1 hs with hs | hs
    · simpa using h s hs
    · simp at hs
      subst hs
      simp
  have h30 : ∀ s ∈ (l ++ [t]) ++ [t], (fun s => decide (t - s < 30)) s = true := by
    intro s hs
    rcases List.mem_append.1 hs with hs | hs
    · have h2 := h10 s hs
      simp only [decide_eq_true_eq] at h2 ⊢
      omega
    · simp at hs
      subst hs
      simp
  unfold ratesStep
  rw [List.filter_eq_self.2 h10, List.filter_eq_self.2 h30]
  simp

theorem scenarioB_auth :
    scenarioBSt.authorized_macs = init.authorized_macs := by
  unfold scenarioBSt run scenarioBEvents
  exact run_packets_auth 10 true scenarioBPacket scenarioBTimes init

theorem scenarioB_rates :
    scenarioBSt.packet_rates "11:22:33:44:55:66"
      = scenarioBTimes.foldl ratesStep [] := by
  unfold scenarioBSt run scenarioBEvents
  exact run_packets_rates 10 true scenarioBPacket "11:22:33:44:55:66" rfl (by decide)
    scenarioBTimes init

theorem scenarioB_window :
    (((scenarioBSt.packet_rates "11:22:33:44:55:66") ++ [(2:ℤ)]).filter
      (fun s => (2:ℤ) - s < 10)).length = 29 := by
  rw [scenarioB_rates]
  decide

theorem scenarioB_no_threats :
    (receive_packet 10 true scenarioBSt scenarioBPacket 2).threats = [] := by
  rw [receive_threats_eq]
  refine analyze_packet_nil _ _ _ _ _ "11:22:33:44:55:66" rfl (by decide) (by decide)
    ?_ ?_
  · rw [show (((scenarioBSt.packet_rates "11:22:33:44:55:66" ++ [(2:ℤ)]).filter
        (fun s => (2:ℤ) - s < 10)).length) = 29 from scenarioB_window]
    rw [flood_iff]
    norm_num
  · rw [scenarioB_auth]
    decide

theorem scenarioB_no_autoblock :
    (receive_packet 10 true scenarioBSt scenarioBPacket 2).auto_blocked = false := by
  rw [receive_auto_eq]
  rw [show (analyze_packet scenarioBSt.authorized_macs 10 scenarioBSt.packet_rates
      scenarioBPacket 2).1 = [] from
    (receive_threats_eq 10 true scenarioBSt scenarioBPacket 2).symm.trans
      scenarioB_no_threats]
  rfl

end SP

namespace Srv

theorem check_intrusion_log_le (auth : Finset String) (ssidCfg : String)
    (log : List LogEntry) (p : Packet) (t : ℤ) (h : log.length ≤ 100) :
    (check_intrusion auth ssidCfg log p t).2.length ≤ 100 := by
  unfold check_intrusion
  try dsimp only
  by_cases hz : (pyUpper (p.mac.getD "") = "" ∨ pyUpper (p.mac.getD "") = "00:00:00:00:00:00")
  · rw [if_pos hz]
    exact h
  · rw [if_neg hz]
    by_cases hmem : pyUpper (p.mac.getD "") ∈ auth
    · rw [if_pos hmem]
      exact h
    · rw [if_neg hmem]
      try dsimp only
      set R : List String :=
        (if p.attack_type.getD "" = "auth_attempt" ∧ p.ssid.getD "" = ssidCfg then
          ["Authentication attempt on " ++ ssidCfg] else []) ++
        (if p.attack_type.getD "" = "association" ∧ p.ssid.getD "" = ssidCfg then
          ["Association request on " ++ ssidCfg] else []) ++
        (if p.attack_type.getD "" = "deauth_attack" then
          ["Deauthentication attack detected"] else []) ++
        (if p.attack_type.getD "" = "probe_request" ∧ p.ssid.getD "" = ssidCfg then
          ["Probing for " ++ ssidCfg] else []) with hR
      split
      · exact h
      · try dsimp only
        split
        · rename_i hlen
          simp only [List.length_tail, List.length_append, List.length_singleton]
          omega
        · rename_i hlen
          simp only [List.length_append, List.length_singleton] at hlen ⊢
          omega

theorem check_intrusion_log_at_capacity (auth : Finset String) (ssidCfg : String)
    (log : List LogEntry) (p : Packet) (t : ℤ) (h : log.length = 100) :
    (check_intrusion auth ssidCfg log p t).2 = log ∨
    ∃ e, (check_intrusion auth ssidCfg log p t).2 = log.tail ++ [e] := by
  unfold check_intrusion
  try dsimp only
  by_cases hz : (pyUpper (p.mac.getD "") = "" ∨ pyUpper (p.mac.getD "") = "00:00:00:00:00:00")
  · rw [if_pos hz]
    exact Or.inl rfl
  · rw [if_neg hz]
    by_cases hmem : pyUpper (p.mac.getD "") ∈ auth
    · rw [if_pos hmem]
      exact Or.inl rfl
    · rw [if_neg hmem]
      try dsimp only
      set R : List String :=
        (if p.attack_type.getD "" = "auth_attempt" ∧ p.ssid.getD "" = ssidCfg then
          ["Authentication attempt on " ++ ssidCfg] else []) ++
        (if p.attack_type.getD "" = "association" ∧ p.ssid.getD "" = ssidCfg then
          ["Association request on " ++ ssidCfg] else []) ++
        (if p.attack_type.getD "" = "deauth_attack" then
          ["Deauthentication attack detected"] else []) ++
        (if p.attack_type.getD "" = "probe_request" ∧ p.ssid.getD "" = ssidCfg then
          ["Probing for " ++ ssidCfg] else []) with hR
      split
      · exact Or.inl rfl
      · refine Or.inr ⟨⟨t, pyUpper (p.mac.getD ""), p.attack_type.getD "",
          String.intercalate " | " R, p.rssi.getD (-99)⟩, ?_⟩
        try dsimp only
        rw [if_pos (by simp [h])]
        cases hlog : log with
        | nil => rw [hlog] at h; simp at h
        | cons a l0 => simp

end Srv

/-! ## The claims -/

/-- C1: the claim states that for every identifier in the
Authorization Store both classifiers return an empty finding list for
any record.  Counterexample: in `Server.py`, `analyze_packet` does not
short-circuit on authorization — a `deauth` record from the authorized
identifier `AA:BB:CC:DD:EE:FF` still yields a non-empty finding
list. -/
theorem C1_counterexample :
    "AA:BB:CC:DD:EE:FF" ∈ ({"AA:BB:CC:DD:EE:FF"} : Finset String) ∧
    (SP.analyze_packet {"AA:BB:CC:DD:EE:FF"} 10 (fun _ => [])
        ⟨some "AA:BB:CC:DD:EE:FF", some "deauth", none, none⟩ 0).1 ≠ [] := by
  refine ⟨by decide, ?_⟩
  obtain ⟨l, hl⟩ := SP.analyze_packet_deauth_head {"AA:BB:CC:DD:EE:FF"} 10 (fun _ => [])
    ⟨some "AA:BB:CC:DD:EE:FF", some "deauth", none, none⟩ 0 rfl
  rw [hl]
  exact List.cons_ne_nil _ _

/-- C1 (amended): in `server.py`, `check_intrusion` short-circuits on
authorization and reports nothing for an authorized identifier; in
`Server.py`, authorization only suppresses the `unauthorized_device`
finding of `analyze_packet` — signature and rate findings are still
evaluated and can be returned. -/
theorem C1_authorized_classification :
    (∀ (auth : Finset String) (ssidCfg : String) (log : List Srv.LogEntry)
        (p : Srv.Packet) (t : ℤ),
      pyUpper (p.mac.getD "") ∈ auth →
        Srv.check_intrusion auth ssidCfg log p t = (none, log)) ∧
    (∀ (auth : Finset String) (thr : ℚ) (rates : String → List ℤ)
        (p : SP.Packet) (t : ℤ),
      p.mac.getD "" ∈ auth →
        (SP.analyze_packet auth thr rates p t).1.filter
          (fun th => th.ttype = "unauthorized_device") = []) :=
  ⟨fun auth ssidCfg log p t h => Srv.check_intrusion_none_of_auth auth ssidCfg log p t h,
   fun auth thr rates p t h => SP.analyze_packet_no_unauthorized auth thr rates p t h⟩

/-- C1 witness: the amended theorem applied to a concrete authorized
identifier. -/
theorem C1_authorized_classification_witness :
    pyUpper ((some "AA:BB:CC:DD:EE:FF" : Option String).getD "")
        ∈ ({"AA:BB:CC:DD:EE:FF"} : Finset String) ∧
    Srv.check_intrusion {"AA:BB:CC:DD:EE:FF"} "HomeNet" []
        ⟨some "AA:BB:CC:DD:EE:FF", none, some "deauth_attack", none, none⟩ 0 = (none, []) ∧
    (SP.analyze_packet {"AA:BB:CC:DD:EE:FF"} 10 (fun _ => [])
        ⟨some "AA:BB:CC:DD:EE:FF", some "deauth", none, none⟩ 0).1.filter
      (fun th => th.ttype = "unauthorized_device") = [] :=
  ⟨by decide,
   C1_authorized_classification.1 {"AA:BB:CC:DD:EE:FF"} "HomeNet" []
     ⟨some "AA:BB:CC:DD:EE:FF", none, some "deauth_attack", none, none⟩ 0 (by decide),
   C1_authorized_classification.2 {"AA:BB:CC:DD:EE:FF"} 10 (fun _ => [])
     ⟨some "AA:BB:CC:DD:EE:FF", some "deauth", none, none⟩ 0 (by decide)⟩

/-- C2: no automatic mitigation path transitions an identifier that is
in the Authorization Store to Blocked.  In `Server.py`, from any state
reachable from process start, ingesting a record whose identifier is
authorized changes neither the firewall nor `blocked_macs` and reports
`auto_blocked = false`; in `server.py`, a sweep cycle never changes an
authorized identifier's membership in the `INPUT`/`FORWARD` rules or
the block table. -/
theorem C2_no_auto_block_of_authorized :
    (∀ (thr : ℚ) (es : List SP.Event) (ok : Bool) (p : SP.Packet) (t : ℤ),
      p.mac.getD "00:00:00:00:00:00" ∈ (SP.run thr es).authorized_macs →
        (SP.receive_packet thr ok (SP.run thr es) p t).st.fw = (SP.run thr es).fw ∧
        (SP.receive_packet thr ok (SP.run thr es) p t).st.blocked_macs
          = (SP.run thr es).blocked_macs ∧
        (SP.receive_packet thr ok (SP.run thr es) p t).auto_blocked = false) ∧
    (∀ (auth : Finset String) (ssidCfg : String) (ok1 ok2 okDb : Bool) (t : ℤ)
        (acc : Srv.SweepAcc) (ps : List Srv.Packet) (M : String),
      M ∈ auth →
        ((M ∈ (Srv.sweepCycle auth ssidCfg ok1 ok2 okDb t acc ps).bst.fw.input)
            ↔ M ∈ acc.bst.fw.input) ∧
        ((M ∈ (Srv.sweepCycle auth ssidCfg ok1 ok2 okDb t acc ps).bst.fw.forward)
            ↔ M ∈ acc.bst.fw.forward) ∧
        ((M ∈ (Srv.sweepCycle auth ssidCfg ok1 ok2 okDb t acc ps).bst.db)
            ↔ M ∈ acc.bst.db)) :=
  ⟨fun thr es ok p t h =>
    SP.receive_authorized_frozen thr ok (SP.run thr es) p t (SP.run_authInv thr es) h,
   fun auth ssidCfg ok1 ok2 okDb t acc ps M hM =>
    Srv.sweepCycle_mem auth ssidCfg ok1 ok2 okDb t ps acc M hM⟩

/-- C2 witness: the theorem applied at the whitelisted identifier
`AA:BB:CC:DD:EE:FF` from the initial state, and at a one-element
authorization set for the sweep side. -/
theorem C2_no_auto_block_of_authorized_witness :
    ((⟨some "AA:BB:CC:DD:EE:FF", none, none, none⟩ : SP.Packet).mac.getD
        "00:00:00:00:00:00") ∈ (SP.run 10 []).authorized_macs ∧
    (SP.receive_packet 10 true (SP.run 10 [])
        ⟨some "AA:BB:CC:DD:EE:FF", none, none, none⟩ 0).auto_blocked = false ∧
    "AA:BB:CC:DD:EE:FF" ∈ ({"AA:BB:CC:DD:EE:FF"} : Finset String) ∧
    (("AA:BB:CC:DD:EE:FF" ∈ (Srv.sweepCycle {"AA:BB:CC:DD:EE:FF"} "HomeNet" true true true 0
        ⟨⟨⟨∅, ∅⟩, ∅⟩, [], ∅, 0⟩ []).bst.db) ↔
      "AA:BB:CC:DD:EE:FF" ∈ ((⟨⟨⟨∅, ∅⟩, ∅⟩, [], ∅, 0⟩ : Srv.SweepAcc)).bst.db) :=
  ⟨by decide,
   (C2_no_auto_block_of_authorized.1 10 [] true
     ⟨some "AA:BB:CC:DD:EE:FF", none, none, none⟩ 0 (by decide)).2.2,
   by decide,
   (C2_no_auto_block_of_authorized.2 {"AA:BB:CC:DD:EE:FF"} "HomeNet" true true true 0
     ⟨⟨⟨∅, ∅⟩, ∅⟩, [], ∅, 0⟩ [] "AA:BB:CC:DD:EE:FF" (by decide)).2.2⟩

/-- C3: the claim states that authorizing a Blocked identifier
synchronously unblocks it in both variants.  Counterexample: in
`server.py`, `authorize_mac` touches only the authorization set and
the device flag — after authorizing a MAC whose DROP rules and block
row exist, the firewall rule and the `blocked` DB row are still
present. -/
theorem C3_counterexample :
    "AA:BB:CC:DD:EE:FF" ∈ (Srv.authorize_mac
        ⟨fun _ => none, ∅, [], ⟨⟨{"AA:BB:CC:DD:EE:FF"}, {"AA:BB:CC:DD:EE:FF"}⟩,
          {"AA:BB:CC:DD:EE:FF"}⟩⟩ "AA:BB:CC:DD:EE:FF").authorized_macs ∧
    (Srv.authorize_mac
        ⟨fun _ => none, ∅, [], ⟨⟨{"AA:BB:CC:DD:EE:FF"}, {"AA:BB:CC:DD:EE:FF"}⟩,
          {"AA:BB:CC:DD:EE:FF"}⟩⟩ "AA:BB:CC:DD:EE:FF").bst.db
      = {"AA:BB:CC:DD:EE:FF"} ∧
    (Srv.authorize_mac
        ⟨fun _ => none, ∅, [], ⟨⟨{"AA:BB:CC:DD:EE:FF"}, {"AA:BB:CC:DD:EE:FF"}⟩,
          {"AA:BB:CC:DD:EE:FF"}⟩⟩ "AA:BB:CC:DD:EE:FF").bst.fw.input
      = {"AA:BB:CC:DD:EE:FF"} := by
  refine ⟨?_, ?_, ?_⟩
  · show _ ∈ (Srv.authorize_mac _ _).authorized_macs
    rw [show (Srv.authorize_mac
        ⟨fun _ => none, ∅, [], ⟨⟨{"AA:BB:CC:DD:EE:FF"}, {"AA:BB:CC:DD:EE:FF"}⟩,
          {"AA:BB:CC:DD:EE:FF"}⟩⟩ "AA:BB:CC:DD:EE:FF").authorized_macs
      = insert (pyUpper "AA:BB:CC:DD:EE:FF") ∅ from by
        unfold Srv.authorize_mac
        rw [if_neg (by decide)]]
    decide
  · rw [Srv.srv_authorize_bst]
  · rw [Srv.srv_authorize_bst]

/-- C3 (amended): in `Server.py`, authorizing a Blocked identifier
synchronously discards it from `blocked_macs` (so it is no longer
logically blocked) and invokes the firewall unblock, and revoking the
authorization changes neither `blocked_macs` nor the firewall; in
`server.py`, `authorize_mac` performs no unblock at all — the block
state is untouched. -/
theorem C3_authorize_unblocks :
    (∀ (ok : Bool) (st : SP.SState) (mac : String),
      pyUpper mac ∈ st.blocked_macs →
        (SP.authorize_mac ok st mac).blocked_macs
          = st.blocked_macs.erase (pyUpper mac) ∧
        pyUpper mac ∉ (SP.authorize_mac ok st mac).blocked_macs ∧
        (SP.authorize_mac ok st mac).fw = (st.fw.unblock_mac ok (pyUpper mac)).2 ∧
        pyUpper mac ∈ (SP.authorize_mac ok st mac).authorized_macs) ∧
    (∀ (st : SP.SState) (mac : String),
      (SP.unauthorize_mac st mac).blocked_macs = st.blocked_macs ∧
      (SP.unauthorize_mac st mac).fw = st.fw) ∧
    (∀ (st : Srv.FState) (mac : String), (Srv.authorize_mac st mac).bst = st.bst) := by
  refine ⟨?_, ?_, ?_⟩
  · intro ok st mac hb
    obtain ⟨h1, h2⟩ := SP.authorize_blocked_of_mem ok st mac hb
    refine ⟨h1, ?_, h2, ?_⟩
    · rw [h1]
      exact Finset.not_mem_erase _ _
    · rw [SP.authorize_auth_set]
      exact Finset.mem_insert_self _ _
  · exact fun st mac => SP.unauthorize_blocked st mac
  · exact fun st mac => Srv.srv_authorize_bst st mac

/-- C3 witness: the amended theorem applied to a state where
`AA:BB:CC:DD:EE:FF` is blocked. -/
theorem C3_authorize_unblocks_witness :
    pyUpper "aa:bb:cc:dd:ee:ff"
        ∈ (({"AA:BB:CC:DD:EE:FF"} : Finset String)) ∧
    (SP.authorize_mac true
        ⟨fun _ => none, {"AA:BB:CC:DD:EE:FF"}, ∅, fun _ => [], [],
          ⟨{"AA:BB:CC:DD:EE:FF"}⟩⟩ "aa:bb:cc:dd:ee:ff").blocked_macs
      = ({"AA:BB:CC:DD:EE:FF"} : Finset String).erase (pyUpper "aa:bb:cc:dd:ee:ff") :=
  ⟨by decide,
   (C3_authorize_unblocks.1 true
     ⟨fun _ => none, {"AA:BB:CC:DD:EE:FF"}, ∅, fun _ => [], [],
       ⟨{"AA:BB:CC:DD:EE:FF"}⟩⟩ "aa:bb:cc:dd:ee:ff" (by decide)).1⟩

/-- C4: the claim states that the second of two successive block
invocations is a no-op that still returns success.  Counterexample: in
both variants the second invocation returns `False` (`Server.py`
prints "already blocked" and returns `False`; `server.py` likewise),
not success. -/
theorem C4_counterexample :
    ((SP.Firewall.block_mac ⟨∅⟩ true "AA:BB:CC:DD:EE:FF").1 = true) ∧
    (((SP.Firewall.block_mac ⟨∅⟩ true "AA:BB:CC:DD:EE:FF").2.block_mac true
        "AA:BB:CC:DD:EE:FF").1 = false) ∧
    ((Srv.block_with_iptables true true true ⟨⟨∅, ∅⟩, ∅⟩ "AA:BB:CC:DD:EE:FF").1 = true) ∧
    ((Srv.block_with_iptables true true true
        (Srv.block_with_iptables true true true ⟨⟨∅, ∅⟩, ∅⟩ "AA:BB:CC:DD:EE:FF").2
        "AA:BB:CC:DD:EE:FF").1 = false) := by
  decide

/-- C4 (amended): two successive block invocations for the same
identifier insert exactly one firewall rule and create exactly one
block record; the second invocation is a state-preserving no-op, but
it returns `False`, not success. -/
theorem C4_block_idempotent :
    (∀ (fw : SP.Firewall) (mac : String), mac ∉ fw.rules →
      (fw.block_mac true mac).1 = true ∧
      (fw.block_mac true mac).2.rules = insert mac fw.rules ∧
      ((fw.block_mac true mac).2.block_mac true mac).1 = false ∧
      ((fw.block_mac true mac).2.block_mac true mac).2 = (fw.block_mac true mac).2) ∧
    (∀ (s : Srv.BState) (mac : String), pyUpper mac ∉ s.fw.input →
      (Srv.block_with_iptables true true true s mac).1 = true ∧
      (Srv.block_with_iptables true true true s mac).2.db
        = insert (pyUpper mac) s.db ∧
      ((Srv.block_with_iptables true true true
          (Srv.block_with_iptables true true true s mac).2 mac).1 = false) ∧
      ((Srv.block_with_iptables true true true
          (Srv.block_with_iptables true true true s mac).2 mac).2
        = (Srv.block_with_iptables true true true s mac).2)) := by
  constructor
  · intro fw mac h
    simp [SP.Firewall.block_mac, h]
  · intro s mac h
    simp [Srv.block_with_iptables, h]

/-- C4 witness: the amended theorem applied to an empty firewall. -/
theorem C4_block_idempotent_witness :
    ("AA:BB:CC:DD:EE:FF" ∉ (⟨∅⟩ : SP.Firewall).rules) ∧
    ((SP.Firewall.block_mac ⟨∅⟩ true "AA:BB:CC:DD:EE:FF").2.rules
      = insert "AA:BB:CC:DD:EE:FF" (⟨∅⟩ : SP.Firewall).rules) ∧
    (pyUpper "AA:BB:CC:DD:EE:FF" ∉ (⟨⟨∅, ∅⟩, ∅⟩ : Srv.BState).fw.input) ∧
    ((Srv.block_with_iptables true true true ⟨⟨∅, ∅⟩, ∅⟩ "AA:BB:CC:DD:EE:FF").2.db
      = insert (pyUpper "AA:BB:CC:DD:EE:FF") (⟨⟨∅, ∅⟩, ∅⟩ : Srv.BState).db) :=
  ⟨by decide,
   (C4_block_idempotent.1 ⟨∅⟩ "AA:BB:CC:DD:EE:FF" (by decide)).2.1,
   by decide,
   (C4_block_idempotent.2 ⟨⟨∅, ∅⟩, ∅⟩ "AA:BB:CC:DD:EE:FF" (by decide)).2.1⟩

/-- C5: the claim states that a failed firewall call never advances
logical state (no block record, failure only logged) and a failed
unblock leaves the identifier Blocked.  Counterexample: in
`server.py`, `block_with_iptables` never inspects the exit codes of
the two `iptables -A` commands — with both inserts failing it still
creates the block record and returns `True` (so the e-mail alert is
sent). -/
theorem C5_counterexample :
    Srv.block_with_iptables false false true ⟨⟨∅, ∅⟩, ∅⟩ "AA:BB:CC:DD:EE:FF"
      = (true, ⟨⟨∅, ∅⟩, {"AA:BB:CC:DD:EE:FF"}⟩) := by
  decide

/-- C5 (amended): in `Server.py`, a failed `iptables -A` during
ingestion leaves `blocked_macs`, the firewall and the `auto_blocked`
flag untouched; but a failed unblock does not leave the identifier
logically Blocked (`authorize_mac` discards it from `blocked_macs`
before and regardless of the unblock result), and in `server.py` a
block whose iptables inserts fail still creates the BlockRecord and
returns success. -/
theorem C5_failed_adapter_state :
    (∀ (thr : ℚ) (st : SP.SState) (p : SP.Packet) (t : ℤ),
      (SP.receive_packet thr false st p t).st.blocked_macs = st.blocked_macs ∧
      (SP.receive_packet thr false st p t).st.fw = st.fw ∧
      (SP.receive_packet thr false st p t).auto_blocked = false) ∧
    (∀ (st : SP.SState) (mac : String), pyUpper mac ∈ st.blocked_macs →
      pyUpper mac ∉ (SP.authorize_mac false st mac).blocked_macs) ∧
    (∀ (s : Srv.BState) (mac : String), pyUpper mac ∉ s.fw.input →
      (Srv.block_with_iptables false false true s mac).1 = true ∧
      (Srv.block_with_iptables false false true s mac).2.fw = s.fw ∧
      (Srv.block_with_iptables false false true s mac).2.db
        = insert (pyUpper mac) s.db) := by
  refine ⟨fun thr st p t => SP.receive_blockOk_false thr st p t, ?_, ?_⟩
  · intro st mac hb
    rw [(SP.authorize_blocked_of_mem false st mac hb).1]
    exact Finset.not_mem_erase _ _
  · intro s mac h
    refine ⟨?_, ?_, ?_⟩ <;> simp [Srv.block_with_iptables, h]

/-- C5 witness: the amended theorem applied to concrete states. -/
theorem C5_failed_adapter_state_witness :
    (SP.receive_packet 10 false SP.init
        ⟨some "AA:BB:CC:DD:EE:FF", some "deauth", none, none⟩ 0).auto_blocked = false ∧
    pyUpper "aa:bb:cc:dd:ee:ff" ∈ ({"AA:BB:CC:DD:EE:FF"} : Finset String) ∧
    pyUpper "aa:bb:cc:dd:ee:ff"
      ∉ (SP.authorize_mac false
          ⟨fun _ => none, {"AA:BB:CC:DD:EE:FF"}, ∅, fun _ => [], [],
            ⟨{"AA:BB:CC:DD:EE:FF"}⟩⟩ "aa:bb:cc:dd:ee:ff").blocked_macs ∧
    pyUpper "AA:BB:CC:DD:EE:FF" ∉ (⟨⟨∅, ∅⟩, ∅⟩ : Srv.BState).fw.input ∧
    (Srv.block_with_iptables false false true ⟨⟨∅, ∅⟩, ∅⟩ "AA:BB:CC:DD:EE:FF").1 = true :=
  ⟨(C5_failed_adapter_state.1 10 SP.init
      ⟨some "AA:BB:CC:DD:EE:FF", some "deauth", none, none⟩ 0).2.2,
   by decide,
   C5_failed_adapter_state.2.1
     ⟨fun _ => none, {"AA:BB:CC:DD:EE:FF"}, ∅, fun _ => [], [],
       ⟨{"AA:BB:CC:DD:EE:FF"}⟩⟩ "aa:bb:cc:dd:ee:ff" (by decide),
   by decide,
   (C5_failed_adapter_state.2.2 ⟨⟨∅, ∅⟩, ∅⟩ "AA:BB:CC:DD:EE:FF" (by decide)).1⟩

/-- C6: the claim states that the 15th of 15 records within 10 seconds
crosses the 10 pps threshold, producing a critical packet-flood
finding and an auto-block.  Counterexample: running the 15 records of
scenario B through `Server.py`'s ingestion pipeline, the 15th record
produces no packet-flood finding and no auto-block (the window then
holds 29 timestamps, i.e. 2.9 pps, far below the threshold). -/
theorem C6_counterexample :
    (SP.receive_packet 10 true SP.scenarioBSt SP.scenarioBPacket 2).threats.filter
        (fun th => th.ttype = "packet_flood") = [] ∧
    (SP.receive_packet 10 true SP.scenarioBSt SP.scenarioBPacket 2).auto_blocked
      = false := by
  refine ⟨?_, SP.scenarioB_no_autoblock⟩
  rw [SP.scenarioB_no_threats]
  rfl

/-- C6 (amended): after 14 records of scenario B the 15th record's
10-second window holds 29 timestamps (each record appends its
timestamp twice), the 15th record yields no findings at all, and in
general `analyze_packet` emits a packet-flood finding exactly when
the pruned window length divided by 10 exceeds the threshold — with
threshold 10 that needs more than 100 window entries, which 15
records can never produce. -/
theorem C6_rate_threshold_behavior :
    ((((SP.scenarioBSt.packet_rates "11:22:33:44:55:66") ++ [(2:ℤ)]).filter
        (fun s => (2:ℤ) - s < 10)).length = 29) ∧
    (SP.receive_packet 10 true SP.scenarioBSt SP.scenarioBPacket 2).threats = [] ∧
    (∀ (auth : Finset String) (thr : ℚ) (rates : String → List ℤ)
        (p : SP.Packet) (t : ℤ) (m : String),
      p.mac = some m → m ≠ "" →
        (((SP.analyze_packet auth thr rates p t).1.filter
            (fun th => th.ttype = "packet_flood") ≠ []) ↔
          thr < ((((rates m ++ [t]).filter (fun s => t - s < 10)).length : ℚ)) / 10)) :=
  ⟨SP.scenarioB_window, SP.scenarioB_no_threats,
   fun auth thr rates p t m hm hne =>
     SP.analyze_packet_flood_iff auth thr rates p t m hm hne⟩

/-- C6 witness: the general conjunct applied to a concrete record. -/
theorem C6_rate_threshold_behavior_witness :
    ((⟨some "11:22:33:44:55:66", none, none, none⟩ : SP.Packet).mac
        = some "11:22:33:44:55:66") ∧
    ("11:22:33:44:55:66" ≠ "") ∧
    (((SP.analyze_packet ∅ 10 (fun _ => [])
          ⟨some "11:22:33:44:55:66", none, none, none⟩ 0).1.filter
        (fun th => th.ttype = "packet_flood") ≠ []) ↔
      (10:ℚ) < ((((((fun _ => ([] : List ℤ)) "11:22:33:44:55:66") ++ [(0:ℤ)]).filter
          (fun s => (0:ℤ) - s < 10)).length : ℚ)) / 10) :=
  ⟨rfl, by decide,
   C6_rate_threshold_behavior.2.2 ∅ 10 (fun _ => [])
     ⟨some "11:22:33:44:55:66", none, none, none⟩ 0 "11:22:33:44:55:66" rfl (by decide)⟩

/-- C7: the claim states that last-seen never moves backward and an
out-of-order observation leaves it unchanged while the count still
increments.  Counterexample: in `Server.py`, the upsert overwrites
last-seen with the current processing time unconditionally — after an
upsert at time 10 followed by one at time 5, last-seen is 5, i.e. it
moved backward instead of being left unchanged. -/
theorem C7_counterexample :
    ((SP.upsertDevice (fun _ => none) ∅ "AA:BB:CC:DD:EE:FF"
        ⟨some "AA:BB:CC:DD:EE:FF", none, none, none⟩ 10) "AA:BB:CC:DD:EE:FF").map
      SP.Device.last_seen = some 10 ∧
    ((SP.upsertDevice (SP.upsertDevice (fun _ => none) ∅ "AA:BB:CC:DD:EE:FF"
          ⟨some "AA:BB:CC:DD:EE:FF", none, none, none⟩ 10) ∅ "AA:BB:CC:DD:EE:FF"
        ⟨some "AA:BB:CC:DD:EE:FF", none, none, none⟩ 5) "AA:BB:CC:DD:EE:FF").map
      SP.Device.last_seen = some 5 := by
  decide

/-- C7 (amended): each upsert increments the stored packet count by
exactly one and unconditionally sets last-seen to the handler's
processing time — so last-seen is non-decreasing precisely when the
records are processed at non-decreasing times, and there is no
out-of-order protection.  Both variants behave this way. -/
theorem C7_upsert_semantics :
    (∀ (devices : String → Option SP.Device) (auth : Finset String) (mac : String)
        (p : SP.Packet) (t : ℤ),
      ∃ d, SP.upsertDevice devices auth mac p t mac = some d ∧
        d.last_seen = t ∧
        d.packet_count = ((devices mac).map SP.Device.packet_count).getD 0 + 1) ∧
    (∀ (devices : String → Option SP.Device) (auth : Finset String) (mac : String)
        (p : SP.Packet) (t : ℤ) (d0 : SP.Device),
      devices mac = some d0 → d0.last_seen ≤ t →
        ∀ d, SP.upsertDevice devices auth mac p t mac = some d →
          d0.last_seen ≤ d.last_seen) ∧
    (∀ (auth : Finset String) (devices : String → Option Srv.Device)
        (p : Srv.Packet) (t : ℤ),
      pyUpper (p.mac.getD "") ≠ "" → pyUpper (p.mac.getD "") ≠ "00:00:00:00:00:00" →
        ∃ d, Srv.receive_packet auth devices p t (pyUpper (p.mac.getD "")) = some d ∧
          d.last_seen = t ∧
          d.packet_count = ((devices (pyUpper (p.mac.getD ""))).map
              Srv.Device.packet_count).getD 0 + 1) := by
  refine ⟨fun devices auth mac p t => SP.upsertDevice_fields devices auth mac p t,
    ?_, ?_⟩
  · intro devices auth mac p t d0 hd0 hle d hd
    rw [SP.upsertDevice_self_some _ _ _ _ _ _ hd0] at hd
    rw [← Option.some.inj hd]
    exact hle
  · intro auth devices p t hne1 hne2
    obtain ⟨d, hd, h1, h2, -⟩ := Srv.srv_receive_self auth devices p t hne1 hne2
    exact ⟨d, hd, h1, h2⟩

/-- C7 witness: the amended theorem applied at concrete inputs. -/
theorem C7_upsert_semantics_witness :
    ((fun _ => some (⟨0, 3, 7, -40, 6, false, "normal", false⟩ : SP.Device))
        "AA:BB:CC:DD:EE:FF" = some ⟨0, 3, 7, -40, 6, false, "normal", false⟩) ∧
    ((3:ℤ) ≤ 5) ∧
    (SP.upsertDevice (fun _ => some ⟨0, 3, 7, -40, 6, false, "normal", false⟩) ∅
        "AA:BB:CC:DD:EE:FF" ⟨some "AA:BB:CC:DD:EE:FF", none, none, none⟩ 5
        "AA:BB:CC:DD:EE:FF" = some ⟨0, 5, 8, -40, 6, false, "normal", false⟩) ∧
    ((3:ℤ) ≤ (⟨0, 5, 8, -40, 6, false, "normal", false⟩ : SP.Device).last_seen) ∧
    (pyUpper ((⟨some "aa:bb:cc:dd:ee:ff", none, none, none, none⟩ : Srv.Packet).mac.getD "")
      ≠ "") :=
  ⟨rfl, by decide, by decide,
   C7_upsert_semantics.2.1 (fun _ => some ⟨0, 3, 7, -40, 6, false, "normal", false⟩) ∅
     "AA:BB:CC:DD:EE:FF" ⟨some "AA:BB:CC:DD:EE:FF", none, none, none⟩ 5
     ⟨0, 3, 7, -40, 6, false, "normal", false⟩ rfl (by decide)
     ⟨0, 5, 8, -40, 6, false, "normal", false⟩ (by decide),
   by decide⟩

/-- C8: the threat-event log is a bounded ring — after any sequence
of events the `Server.py` log holds at most 100 entries; appending at
capacity drops the oldest entry; and `server.py`'s `check_intrusion`
preserves the same bound and eviction discipline. -/
theorem C8_threat_log_bounded :
    (∀ (thr : ℚ) (es : List SP.Event), (SP.run thr es).threat_log.length ≤ 100) ∧
    (∀ (log : List SP.LogEntry) (e : SP.LogEntry), log.length = 100 →
      SP.log_threat log e = log.tail ++ [e]) ∧
    (∀ (auth : Finset String) (ssidCfg : String) (log : List Srv.LogEntry)
        (p : Srv.Packet) (t : ℤ), log.length ≤ 100 →
      (Srv.check_intrusion auth ssidCfg log p t).2.length ≤ 100) ∧
    (∀ (auth : Finset String) (ssidCfg : String) (log : List Srv.LogEntry)
        (p : Srv.Packet) (t : ℤ), log.length = 100 →
      (Srv.check_intrusion auth ssidCfg log p t).2 = log ∨
      ∃ e, (Srv.check_intrusion auth ssidCfg log p t).2 = log.tail ++ [e]) :=
  ⟨SP.run_threat_log_le, SP.log_threat_at_capacity,
   Srv.check_intrusion_log_le, Srv.check_intrusion_log_at_capacity⟩

/-- C8 witness: the theorem applied at a log of exactly 100 entries
and at the initial state. -/
theorem C8_threat_log_bounded_witness :
    (SP.run 10 []).threat_log.length ≤ 100 ∧
    (List.replicate 100 (⟨0, "m", "t", "s", "d"⟩ : SP.LogEntry)).length = 100 ∧
    SP.log_threat (List.replicate 100 ⟨0, "m", "t", "s", "d"⟩)
        ⟨1, "m2", "t2", "s2", "d2"⟩
      = (List.replicate 100 (⟨0, "m", "t", "s", "d"⟩ : SP.LogEntry)).tail
          ++ [⟨1, "m2", "t2", "s2", "d2"⟩] ∧
    ([] : List Srv.LogEntry).length ≤ 100 ∧
    (Srv.check_intrusion ∅ "HomeNet" []
        ⟨some "AA:BB:CC:DD:EE:FF", none, some "deauth_attack", none, none⟩ 0).2.length
      ≤ 100 :=
  ⟨C8_threat_log_bounded.1 10 [],
   by simp,
   C8_threat_log_bounded.2.1 (List.replicate 100 ⟨0, "m", "t", "s", "d"⟩)
     ⟨1, "m2", "t2", "s2", "d2"⟩ (by simp),
   by simp,
   C8_threat_log_bounded.2.2.1 ∅ "HomeNet" []
     ⟨some "AA:BB:CC:DD:EE:FF", none, some "deauth_attack", none, none⟩ 0 (by simp)⟩

/-- C9: the claim states that every ingested identifier is normalized
to uppercase before registry lookup in both variants.  Counterexample:
`Server.py` performs no normalization — a record with the lowercase
spelling of the whitelisted identifier `AA:BB:CC:DD:EE:FF` creates a
separate DeviceRecord under the lowercase key, marked unauthorized,
while no record appears under the canonical uppercase key. -/
theorem C9_counterexample :
    pyUpper "aa:bb:cc:dd:ee:ff" = "AA:BB:CC:DD:EE:FF" ∧
    "AA:BB:CC:DD:EE:FF" ∈ SP.init.authorized_macs ∧
    (SP.receive_packet 10 true SP.init
        ⟨some "aa:bb:cc:dd:ee:ff", none, none, none⟩ 0).st.devices "AA:BB:CC:DD:EE:FF"
      = none ∧
    ((SP.receive_packet 10 true SP.init
        ⟨some "aa:bb:cc:dd:ee:ff", none, none, none⟩ 0).st.devices
        "aa:bb:cc:dd:ee:ff").map SP.Device.authorized = some false := by
  refine ⟨by decide, by decide, ?_, ?_⟩
  · rw [SP.receive_st_devices_other 10 true SP.init
      ⟨some "aa:bb:cc:dd:ee:ff", none, none, none⟩ 0 "AA:BB:CC:DD:EE:FF" (by decide)]
    rfl
  · rw [SP.receive_st_devices_authMap]
    rw [show ((⟨some "aa:bb:cc:dd:ee:ff", none, none, none⟩ : SP.Packet).mac.getD
        "00:00:00:00:00:00") = "aa:bb:cc:dd:ee:ff" from rfl]
    rw [SP.upsertDevice_self_none SP.init.devices SP.init.authorized_macs
      "aa:bb:cc:dd:ee:ff" ⟨some "aa:bb:cc:dd:ee:ff", none, none, none⟩ 0 rfl]
    decide

/-- C9 (amended): `server.py` uppercases the identifier before any
registry access — a record only ever touches the normalized key, a
fresh record's authorized flag tests the normalized identifier against
the store, and records whose raw identifiers differ only in case share
one DeviceRecord; `Server.py` stores under the raw identifier and
leaves every other key untouched, so case-variants there produce
distinct records. -/
theorem C9_normalization :
    (∀ (auth : Finset String) (devices : String → Option Srv.Device) (p : Srv.Packet)
        (t : ℤ) (k : String), k ≠ pyUpper (p.mac.getD "") →
      Srv.receive_packet auth devices p t k = devices k) ∧
    (∀ (auth : Finset String) (devices : String → Option Srv.Device) (p : Srv.Packet)
        (t : ℤ),
      pyUpper (p.mac.getD "") ≠ "" → pyUpper (p.mac.getD "") ≠ "00:00:00:00:00:00" →
      devices (pyUpper (p.mac.getD "")) = none →
      ∃ d, Srv.receive_packet auth devices p t (pyUpper (p.mac.getD "")) = some d ∧
        d.authorized = decide (pyUpper (p.mac.getD "") ∈ auth)) ∧
    (∀ (thr : ℚ) (ok : Bool) (st : SP.SState) (p : SP.Packet) (t : ℤ) (k : String),
      k ≠ p.mac.getD "00:00:00:00:00:00" →
      (SP.receive_packet thr ok st p t).st.devices k = st.devices k) := by
  refine ⟨fun auth devices p t k hk => Srv.srv_receive_other auth devices p t k hk, ?_,
    fun thr ok st p t k hk => SP.receive_st_devices_other thr ok st p t k hk⟩
  intro auth devices p t h1 h2 hd
  obtain ⟨d, hdev, -, -, hauth⟩ := Srv.srv_receive_self auth devices p t h1 h2
  refine ⟨d, hdev, ?_⟩
  rw [hauth, hd]
  rfl

/-- C9 witness: the amended theorem applied to concrete records. -/
theorem C9_normalization_witness :
    ("11:22:33:44:55:66" ≠ pyUpper ((⟨some "aa:bb:cc:dd:ee:ff", none, none, none,
        none⟩ : Srv.Packet).mac.getD "")) ∧
    Srv.receive_packet ∅ (fun _ => none)
        ⟨some "aa:bb:cc:dd:ee:ff", none, none, none, none⟩ 0 "11:22:33:44:55:66"
      = (fun _ => (none : Option Srv.Device)) "11:22:33:44:55:66" ∧
    (pyUpper ((⟨some "aa:bb:cc:dd:ee:ff", none, none, none, none⟩ : Srv.Packet).mac.getD
        "") ≠ "") ∧
    ((Srv.receive_packet ({"AA:BB:CC:DD:EE:FF"} : Finset String) (fun _ => none)
        ⟨some "aa:bb:cc:dd:ee:ff", none, none, none, none⟩ 0
        (pyUpper ((⟨some "aa:bb:cc:dd:ee:ff", none, none, none,
          none⟩ : Srv.Packet).mac.getD ""))).map Srv.Device.authorized = some true) ∧
    ("aa:bb:cc:dd:ee:ff" ≠ (⟨some "AA:BB:CC:DD:EE:FF", none, none,
        none⟩ : SP.Packet).mac.getD "00:00:00:00:00:00") ∧
    (SP.receive_packet 10 true SP.init ⟨some "AA:BB:CC:DD:EE:FF", none, none, none⟩
        0).st.devices "aa:bb:cc:dd:ee:ff" = SP.init.devices "aa:bb:cc:dd:ee:ff" :=
  ⟨by decide,
   C9_normalization.1 ∅ (fun _ => none)
     ⟨some "aa:bb:cc:dd:ee:ff", none, none, none, none⟩ 0 "11:22:33:44:55:66" (by decide),
   by decide,
   (by
     obtain ⟨d, hdev, hauth⟩ := C9_normalization.2.1 {"AA:BB:CC:DD:EE:FF"} (fun _ => none)
       ⟨some "aa:bb:cc:dd:ee:ff", none, none, none, none⟩ 0 (by decide) (by decide) rfl
     rw [hdev]
     simp only [Option.map_some']
     rw [hauth]
     decide),
   by decide,
   C9_normalization.2.2 10 true SP.init ⟨some "AA:BB:CC:DD:EE:FF", none, none, none⟩
     0 "aa:bb:cc:dd:ee:ff" (by decide)⟩

/-- C10: in `Server.py`, processing one record appends its arrival
timestamp to the identifier's rate list twice — once inside
`analyze_packet` (pruned to the 10 s window) and once at the end of
`receive_packet` (pruned to the 30 s window): the handler's net effect
on the per-identifier list is exactly `ratesStep`, the stored count of
the new timestamp grows by two, and when every existing entry is
inside the 10 s window the list length grows by exactly two, so any
rate computed over the list counts each real packet twice. -/
theorem C10_double_rate_append :
    (∀ (thr : ℚ) (ok : Bool) (st : SP.SState) (p : SP.Packet) (t : ℤ) (m : String),
      p.mac = some m → m ≠ "" →
        (SP.receive_packet thr ok st p t).st.packet_rates m
          = SP.ratesStep (st.packet_rates m) t) ∧
    (∀ (l : List ℤ) (t : ℤ), (SP.ratesStep l t).count t = l.count t + 2) ∧
    (∀ (l : List ℤ) (t : ℤ), (∀ s ∈ l, t - s < 10) →
      (SP.ratesStep l t).length = l.length + 2) :=
  ⟨fun thr ok st p t m hm hne => SP.receive_st_rates thr ok st p t m hm hne,
   SP.ratesStep_count,
   SP.ratesStep_length⟩

/-- C10 witness: the theorem applied to a concrete record and a
concrete in-window list. -/
theorem C10_double_rate_append_witness :
    ((⟨some "AA:BB:CC:DD:EE:FF", none, none, none⟩ : SP.Packet).mac
        = some "AA:BB:CC:DD:EE:FF") ∧
    ("AA:BB:CC:DD:EE:FF" ≠ "") ∧
    ((SP.receive_packet 10 true SP.init
        ⟨some "AA:BB:CC:DD:EE:FF", none, none, none⟩ 7).st.packet_rates
        "AA:BB:CC:DD:EE:FF" = SP.ratesStep (SP.init.packet_rates "AA:BB:CC:DD:EE:FF") 7) ∧
    ((SP.ratesStep [3, 5] 7).length = [3, 5].length + 2) ∧
    ((SP.ratesStep [3, 5] 7).count 7 = [3, 5].count 7 + 2) :=
  ⟨rfl, by decide,
   C10_double_rate_append.1 10 true SP.init
     ⟨some "AA:BB:CC:DD:EE:FF", none, none, none⟩ 7 "AA:BB:CC:DD:EE:FF" rfl (by decide),
   C10_double_rate_append.2.2 [3, 5] 7 (by decide),
   C10_double_rate_append.2.1 [3, 5] 7⟩

end Wids